import Mathlib

/-!
# Verification of the Clinovia feature-preprocessing and assessment pipeline

Shallow embedding of the core of `backend/app/clinical/utils.py`
(`encode_gender`, `fill_defaults`, `preprocess_for_prediction`,
`preprocess_for_prediction_dataframe`, `build_df_from_order`),
`backend/app/services/alzheimer/cache.py` (`_make_key`, `cache_result`),
`backend/app/services/assessment_pipeline.py` (`run_assessment_pipeline`),
and the Alzheimer model adapters
(`diagnosis_basic.py`, `diagnosis_screening.py`, `prognosis_2yr_basic.py`).

Python scalar values are modelled by an inductive `PyVal`; Python dicts by
insertion-ordered association lists (`PyDict`); raisable code returns
`Except String`.  Machine floats are modelled by exact rationals plus an
explicit `nan` constructor (no float rounding is exercised by the code under
verification: it only copies, encodes and reorders values; the external
scaler artifact is an abstract function).
-/

/-- A Python scalar value as it appears in the input dicts of the clinical
preprocessing code: `None`, `bool`, `int`, `float` (modelled exactly by a
rational), the float `nan`, or `str`. -/
inductive PyVal where
  | none
  | bool (b : Bool)
  | int (n : ℤ)
  | float (q : ℚ)
  | nan
  | str (s : String)
  deriving DecidableEq, Repr

/-- A Python dict with string keys, modelled as an insertion-ordered
association list (first occurrence of a key is its binding). -/
abbrev PyDict := List (String × PyVal)

/-- Lookup `d[k]` as an option: the value at the first occurrence of `k`. -/
def PyDict.lookup (d : PyDict) (k : String) : Option PyVal :=
  match d with
  | [] => Option.none
  | (k₁, v₁) :: rest => if k = k₁ then some v₁ else PyDict.lookup rest k

/-- Membership `k in d`. -/
def PyDict.member (d : PyDict) (k : String) : Bool :=
  (d.lookup k).isSome

/-- Assignment `d[k] = v`: replace the binding at the first occurrence of `k`,
or append a new binding (Python dict update semantics). -/
def PyDict.insert (d : PyDict) (k : String) (v : PyVal) : PyDict :=
  match d with
  | [] => [(k, v)]
  | (k₁, v₁) :: rest =>
      if k = k₁ then (k₁, v) :: rest
      else (k₁, v₁) :: PyDict.insert rest k v

/-- ASCII lower-casing of one character (`str.lower` acts this way on the
ASCII gender strings the encoder compares against). -/
def lowerChar (c : Char) : Char :=
  if 65 ≤ c.toNat ∧ c.toNat ≤ 90 then Char.ofNat (c.toNat + 32) else c

/-- Python `str.lower()` on ASCII strings. -/
def lowerString (s : String) : String := String.mk (s.data.map lowerChar)

/-- Embedding of `encode_gender` from `backend/app/clinical/utils.py`, on its annotated
domain `Optional[str]`: `None -> 2`; otherwise lower-case the string and map
`male`/`m -> 0`, `female`/`f -> 1`, anything else `-> 2`. -/
def encode_gender (gender : Option String) : ℤ :=
  match gender with
  | Option.none => 2
  | some g =>
      let g := lowerString g
      if g = "male" ∨ g = "m" then 0
      else if g = "female" ∨ g = "f" then 1
      else 2

/-- Embedding of `encode_gender` under Python dynamic typing, as actually invoked on dict
values by the preprocessing code: after the `gender is None` check the code
unconditionally calls `gender.lower()`, so any non-`None` non-string value
(int, float, bool, nan) raises `AttributeError`. -/
def encode_gender_py (gender : PyVal) : Except String ℤ :=
  match gender with
  | PyVal.none => Except.ok 2
  | PyVal.str s => Except.ok (encode_gender (some s))
  | _ => Except.error "AttributeError: object has no attribute lower"

/-- One pass of `fill_defaults` over one defaults table: for every `(key, default)` of
`defaults` in order, if `key not in filled or filled[key] is None` then
`filled[key] = default`. -/
def fillFrom (filled : PyDict) (defaults : PyDict) : PyDict :=
  match defaults with
  | [] => filled
  | (k, dv) :: rest =>
      let filled :=
        if filled.lookup k = Option.none ∨ filled.lookup k = some PyVal.none
        then filled.insert k dv
        else filled
      fillFrom filled rest

/-- Embedding of `fill_defaults` from `backend/app/clinical/utils.py`: copy the input,
then fill from `numeric_defaults`, then from `categorical_defaults`.
(The Python code copies the input dict before mutating; in the embedding
purity is structural.) -/
def fill_defaults (input_dict numeric_defaults categorical_defaults : PyDict) :
    PyDict :=
  fillFrom (fillFrom input_dict numeric_defaults) categorical_defaults

-- Basic lemmas about the dict model.

theorem PyDict.lookup_insert (d : PyDict) (k k₁ : String) (v : PyVal) :
    (d.insert k v).lookup k₁ = if k₁ = k then some v else d.lookup k₁ := by
  induction d with
  | nil => simp [PyDict.insert, PyDict.lookup]
  | cons p rest ih =>
      obtain ⟨k₂, v₂⟩ := p
      by_cases hk : k = k₂
      · subst hk
        by_cases hk₁ : k₁ = k <;>
          simp [PyDict.insert, PyDict.lookup, hk₁]
      · by_cases hk₁ : k₁ = k₂
        · subst hk₁
          simp [PyDict.insert, PyDict.lookup, hk, Ne.symm hk]
        · simp [PyDict.insert, PyDict.lookup, hk, hk₁, ih]

/-- Keys untouched by `fillFrom`: a key absent from the defaults table keeps
its lookup. -/
theorem fillFrom_lookup_not_mem (filled defaults : PyDict) (k : String)
    (hk : k ∉ defaults.map Prod.fst) :
    (fillFrom filled defaults).lookup k = filled.lookup k := by
  induction defaults generalizing filled with
  | nil => rfl
  | cons p rest ih =>
      obtain ⟨k₁, dv⟩ := p
      simp only [List.map_cons, List.mem_cons] at hk
      push_neg at hk
      obtain ⟨hne, hrest⟩ := hk
      simp only [fillFrom]
      split
      · rw [ih _ hrest, PyDict.lookup_insert, if_neg hne]
      · exact ih _ hrest

/-- A key whose current value is present and non-`None` is never overwritten
by `fillFrom`. -/
theorem fillFrom_lookup_kept (filled defaults : PyDict) (k : String)
    (v : PyVal) (hv : filled.lookup k = some v) (hne : v ≠ PyVal.none) :
    (fillFrom filled defaults).lookup k = some v := by
  induction defaults generalizing filled with
  | nil => exact hv
  | cons p rest ih =>
      obtain ⟨k₁, dv₁⟩ := p
      simp only [fillFrom]
      split
      · next hcond =>
          by_cases hk : k = k₁
          · subst hk
            rw [hv] at hcond
            rcases hcond with h | h
            · exact absurd h (by simp)
            · exact absurd (by injection h) hne
          · refine ih _ ?_
            rw [PyDict.lookup_insert, if_neg hk, hv]
      · exact ih _ hv

/-- A key present in the defaults table with a missing-or-`None` current
value receives its (first) default. -/
theorem fillFrom_lookup_filled (filled defaults : PyDict) (k : String)
    (dv : PyVal)
    (hmem : PyDict.lookup defaults k = some dv)
    (hmiss : filled.lookup k = Option.none ∨ filled.lookup k = some PyVal.none)
    (hdv : dv ≠ PyVal.none) :
    (fillFrom filled defaults).lookup k = some dv := by
  induction defaults generalizing filled with
  | nil => simp [PyDict.lookup] at hmem
  | cons p rest ih =>
      obtain ⟨k₁, dv₁⟩ := p
      by_cases hk : k = k₁
      · subst hk
        simp only [PyDict.lookup, if_pos rfl] at hmem
        have hdveq : dv₁ = dv := by injection hmem
        subst hdveq
        simp only [fillFrom, if_pos hmiss]
        refine fillFrom_lookup_kept _ _ _ _ ?_ hdv
        rw [PyDict.lookup_insert, if_pos rfl]
      · simp only [PyDict.lookup, if_neg hk] at hmem
        simp only [fillFrom]
        split
        · refine ih _ hmem ?_
          rw [PyDict.lookup_insert, if_neg hk]
          exact hmiss
        · exact ih _ hmem hmiss

-- ============================================================
-- Feature Vector Builder (`preprocess_for_prediction` family)
-- ============================================================

deriving instance DecidableEq for Except

/-- A Python list comprehension over fallible element computations:
evaluate `f` left to right, propagating the first raised error. -/
def mapE {α β : Type} (f : α → Except String β) : List α → Except String (List β)
  | [] => Except.ok []
  | a :: l => do
      let b ← f a
      let r ← mapE f l
      Except.ok (b :: r)

/-- Elementwise `float(v)` / `np.array([...], dtype=float)` conversion:
`None` becomes `nan`, `int` and `bool` are widened, floats pass through,
and a string raises unless it is a numeric literal (only integer literals
are modelled; the repository's categorical values are gender strings —
encoded to ints before conversion — and numeric codes). -/
def toPyFloat : PyVal → Except String PyVal
  | PyVal.none => Except.ok PyVal.nan
  | PyVal.bool b => Except.ok (PyVal.float (if b then 1 else 0))
  | PyVal.int n => Except.ok (PyVal.float n)
  | PyVal.float q => Except.ok (PyVal.float q)
  | PyVal.nan => Except.ok PyVal.nan
  | PyVal.str s =>
      match s.toInt? with
      | some n => Except.ok (PyVal.float n)
      | Option.none =>
          Except.error ("could not convert string to float: " ++ s)

/-- The gender-encoding loop shared by both preprocessors:
`for cat_col in categorical_columns: if cat_col == "PTGENDER" and cat_col in
data_filled: data_filled[cat_col] = encode_gender(data_filled[cat_col])`. -/
def applyGenderEncoding (categorical_columns : List String) (d : PyDict) :
    Except String PyDict :=
  match categorical_columns with
  | [] => Except.ok d
  | c :: rest =>
      if c = "PTGENDER" ∧ d.member c then
        match d.lookup c with
        | some v => do
            let code ← encode_gender_py v
            applyGenderEncoding rest (d.insert c (PyVal.int code))
        | Option.none => applyGenderEncoding rest d
      else applyGenderEncoding rest d

/-- Extraction `[data_filled[col] for col in cols]`, turning a `KeyError` into the
preprocessors' message `"Missing required ... feature after defaults"`. -/
def extractCols (d : PyDict) (cols : List String) (kind : String) :
    Except String (List PyVal) :=
  mapE (fun c =>
    match d.lookup c with
    | some v => Except.ok v
    | Option.none =>
        Except.error ("Missing required " ++ kind ++ " feature after defaults: " ++ c))
    cols

/-- Build a dict from a list of `(key, value)` pairs inserted left to right
(later duplicates overwrite, as in Python `dict` construction / `{**a, **b}`
merging). -/
def insertPairs (d : PyDict) (ps : List (String × PyVal)) : PyDict :=
  match ps with
  | [] => d
  | p :: rest => insertPairs (d.insert p.1 p.2) rest

/-- The numeric stage of `preprocess_for_prediction`: convert the extracted
numeric values to floats (`np.array(..., dtype=float)`), then apply the
optional fitted scaler.  The external sklearn scaler is abstracted as a
function on rows; sklearn coerces its input to float first, which is why the
conversion happens before `transform` in both branches. -/
def scaleNumeric (scaler : Option (List PyVal → List PyVal))
    (numeric_values : List PyVal) : Except String (List PyVal) := do
  let converted ← mapE toPyFloat numeric_values
  match scaler with
  | some s => Except.ok (s converted)
  | Option.none => Except.ok converted

/-- Construction of `feature_dict`: numeric columns zipped with their scaled values, then
categorical columns zipped with their raw (post-gender-encoding) values;
`zip` truncates to the shorter list exactly as Python's `zip` does. -/
def buildFeatureDict (numeric_columns : List String) (numeric_scaled : List PyVal)
    (categorical_columns : List String) (categorical_values : List PyVal) : PyDict :=
  insertPairs (insertPairs [] (numeric_columns.zip numeric_scaled))
    (categorical_columns.zip categorical_values)

/-- Embedding of `preprocess_for_prediction` from `backend/app/clinical/utils.py`
(the numpy-array path), returning the single row of the `(1, n)` array:
fill defaults, encode `PTGENDER`, extract and scale numerics, extract
categoricals, merge into `feature_dict`, re-project into `feature_order`
(a missing name raises `ValueError` naming the feature), convert the row
to float (`dtype=float`), and check the final length. -/
def preprocess_for_prediction
    (input_data numeric_defaults categorical_defaults : PyDict)
    (feature_order numeric_columns categorical_columns : List String)
    (scaler : Option (List PyVal → List PyVal)) : Except String (List PyVal) := do
  let data_filled := fill_defaults input_data numeric_defaults categorical_defaults
  let data_filled ← applyGenderEncoding categorical_columns data_filled
  let numeric_values ← extractCols data_filled numeric_columns "numeric"
  let numeric_scaled ← scaleNumeric scaler numeric_values
  let categorical_values ← extractCols data_filled categorical_columns "categorical"
  let feature_dict := buildFeatureDict numeric_columns numeric_scaled
    categorical_columns categorical_values
  let feats ← mapE (fun f =>
      match feature_dict.lookup f with
      | some v => Except.ok v
      | Option.none =>
          Except.error ("Feature '" ++ f ++
            "' in feature_order not found in processed features."))
    feature_order
  let X ← mapE toPyFloat feats
  if X.length ≠ feature_order.length then
    Except.error "Output shape mismatch"
  else
    Except.ok X

/-- The dataframe path numeric stage: with a scaler, float-coerce (sklearn
does this inside `transform`) and scale; without one, keep the raw extracted
values (no `np.array(..., dtype=float)` happens on this path). -/
def scaleNumericDF (scaler : Option (List PyVal → List PyVal))
    (numeric_values : List PyVal) : Except String (List PyVal) :=
  match scaler with
  | some s => do
      let converted ← mapE toPyFloat numeric_values
      Except.ok (s converted)
  | Option.none => Except.ok numeric_values

/-- Embedding of `preprocess_for_prediction_dataframe` from `backend/app/clinical/utils.py`
(the pandas path), returning the single row of the DataFrame in
`feature_order` column order.  Same filling/encoding/extraction stages; with
a scaler the numeric row is float-coerced (by sklearn) and scaled, without
one the raw extracted values are kept; the final
`pd.DataFrame([feature_dict], columns=feature_order)` does NOT raise for a
name absent from `feature_dict` — pandas fills the missing column with
`NaN` — so the `except KeyError` branch of the source is unreachable and
the projection here is total. -/
def preprocess_for_prediction_dataframe
    (input_data numeric_defaults categorical_defaults : PyDict)
    (feature_order numeric_columns categorical_columns : List String)
    (scaler : Option (List PyVal → List PyVal)) : Except String (List PyVal) := do
  let data_filled := fill_defaults input_data numeric_defaults categorical_defaults
  let data_filled ← applyGenderEncoding categorical_columns data_filled
  let numeric_values ← extractCols data_filled numeric_columns "numeric"
  let numeric_scaled ← scaleNumericDF scaler numeric_values
  let categorical_values ← extractCols data_filled categorical_columns "categorical"
  let feature_dict := buildFeatureDict numeric_columns numeric_scaled
    categorical_columns categorical_values
  Except.ok (feature_order.map (fun f => (feature_dict.lookup f).getD PyVal.nan))

-- Lookup/membership glue lemmas.

theorem PyDict.lookup_eq_none_iff (d : PyDict) (k : String) :
    d.lookup k = Option.none ↔ k ∉ d.map Prod.fst := by
  induction d with
  | nil => simp [PyDict.lookup]
  | cons p rest ih =>
      obtain ⟨k₁, v₁⟩ := p
      by_cases hk : k = k₁
      · subst hk; simp [PyDict.lookup]
      · simp [PyDict.lookup, hk, ih]

theorem PyDict.lookup_mem (d : PyDict) (k : String) (v : PyVal)
    (h : d.lookup k = some v) : (k, v) ∈ d := by
  induction d with
  | nil => simp [PyDict.lookup] at h
  | cons p rest ih =>
      obtain ⟨k₁, v₁⟩ := p
      by_cases hk : k = k₁
      · subst hk
        simp only [PyDict.lookup, if_pos rfl] at h
        have : v₁ = v := by injection h
        subst this
        exact List.mem_cons_self _ _
      · simp only [PyDict.lookup, if_neg hk] at h
        exact List.mem_cons_of_mem _ (ih h)

theorem PyDict.lookup_isSome_of_mem_keys (d : PyDict) (k : String)
    (h : k ∈ d.map Prod.fst) : ∃ v, d.lookup k = some v := by
  induction d with
  | nil => simp at h
  | cons p rest ih =>
      obtain ⟨k₁, v₁⟩ := p
      by_cases hk : k = k₁
      · subst hk; exact ⟨v₁, by simp [PyDict.lookup]⟩
      · simp only [List.map_cons, List.mem_cons] at h
        rcases h with h | h
        · exact absurd h hk
        · obtain ⟨v, hv⟩ := ih h
          exact ⟨v, by simp [PyDict.lookup, hk, hv]⟩

-- ============================================================
-- Claims C5, C6, C7 — encoder, defaulting engine, concrete run
-- ============================================================

/-- C5 (counterexample): the claim says `encode_gender` maps "any other
value such as an integer" to code 2 and never raises; but the source calls
`gender.lower()` on every non-`None` input, so the integer `0` raises
`AttributeError` instead of returning a code. -/
theorem encode_gender_int_raises :
    encode_gender_py (PyVal.int 0) =
      Except.error "AttributeError: object has no attribute lower" := rfl

/-- C5 (amended): on the function's annotated domain `Optional[str]` —
`None` or a string of any case — `encode_gender` is total and three-valued:
it returns exactly one of the codes 0, 1, 2, with case-insensitive
`male`/`m ↦ 0`, `female`/`f ↦ 1`, everything else (including `None`) `↦ 2`,
and never raises.  Non-`None` non-string inputs raise `AttributeError`. -/
theorem encode_gender_total_on_strings (g : PyVal)
    (hg : g = PyVal.none ∨ ∃ s, g = PyVal.str s) :
    ∃ c : ℤ, encode_gender_py g = Except.ok c ∧ (c = 0 ∨ c = 1 ∨ c = 2) ∧
      (g = PyVal.none → c = 2) ∧
      (∀ s, g = PyVal.str s →
        ((lowerString s = "male" ∨ lowerString s = "m") → c = 0) ∧
        (¬(lowerString s = "male" ∨ lowerString s = "m") →
          (lowerString s = "female" ∨ lowerString s = "f") → c = 1) ∧
        (¬(lowerString s = "male" ∨ lowerString s = "m") →
          ¬(lowerString s = "female" ∨ lowerString s = "f") → c = 2)) := by
  rcases hg with rfl | ⟨s, rfl⟩
  · exact ⟨2, rfl, by simp, fun _ => rfl, by simp⟩
  · by_cases h0 : lowerString s = "male" ∨ lowerString s = "m"
    · refine ⟨0, ?_, by simp, by simp, ?_⟩
      · simp [encode_gender_py, encode_gender, h0]
      · intro t ht
        have hts : t = s := by injection ht.symm
        subst hts
        exact ⟨fun _ => rfl, fun h _ => absurd h0 h, fun h _ => absurd h0 h⟩
    · by_cases h1 : lowerString s = "female" ∨ lowerString s = "f"
      · refine ⟨1, ?_, by simp, by simp, ?_⟩
        · simp [encode_gender_py, encode_gender, h0, h1]
        · intro t ht
          have hts : t = s := by injection ht.symm
          subst hts
          exact ⟨fun h => absurd h h0, fun _ _ => rfl, fun _ h => absurd h1 h⟩
      · refine ⟨2, ?_, by simp, fun _ => rfl, ?_⟩
        · simp [encode_gender_py, encode_gender, h0, h1]
        · intro t ht
          have hts : t = s := by injection ht.symm
          subst hts
          exact ⟨fun h => absurd h h0, fun _ h => absurd h h1, fun _ _ => rfl⟩

/-- Witness for C5's amended theorem at the concrete input `"Female"`. -/
theorem encode_gender_total_on_strings_witness :
    ∃ c : ℤ, encode_gender_py (PyVal.str "Female") = Except.ok c ∧
      (c = 0 ∨ c = 1 ∨ c = 2) ∧
      (PyVal.str "Female" = PyVal.none → c = 2) ∧
      (∀ s, PyVal.str "Female" = PyVal.str s →
        ((lowerString s = "male" ∨ lowerString s = "m") → c = 0) ∧
        (¬(lowerString s = "male" ∨ lowerString s = "m") →
          (lowerString s = "female" ∨ lowerString s = "f") → c = 1) ∧
        (¬(lowerString s = "male" ∨ lowerString s = "m") →
          ¬(lowerString s = "female" ∨ lowerString s = "f") → c = 2)) :=
  encode_gender_total_on_strings (PyVal.str "Female") (Or.inr ⟨"Female", rfl⟩)

/-- C6 (counterexample): the claim says `fill_defaults` leaves "no None
values at defaulted keys" for *every* pair of default maps; but the code
copies a default verbatim, so a defaults table whose default value is itself
`None` leaves `None` at that key. -/
theorem fill_defaults_none_default_remains :
    (fill_defaults [] [("X", PyVal.none)] []).lookup "X" = some PyVal.none := rfl

/-- C6 (amended): `fill_defaults` is pure and total by construction, and for
default maps carrying no `None` default values: a key with a provided
non-`None` input value keeps it unchanged; a key whose input value is
missing or `None` receives its numeric default, or — when the numeric map
does not bind it — its categorical default (the numeric pass runs first);
keys outside both maps are untouched; and no defaulted key is left `None`. -/
theorem fill_defaults_correct (inp nd cd : PyDict) (k : String)
    (hnd : ∀ p ∈ nd, p.2 ≠ PyVal.none)
    (hcd : ∀ p ∈ cd, p.2 ≠ PyVal.none) :
    (∀ v, inp.lookup k = some v → v ≠ PyVal.none →
        (fill_defaults inp nd cd).lookup k = some v) ∧
    (∀ dv, (inp.lookup k = Option.none ∨ inp.lookup k = some PyVal.none) →
        nd.lookup k = some dv →
        (fill_defaults inp nd cd).lookup k = some dv) ∧
    (∀ dv, (inp.lookup k = Option.none ∨ inp.lookup k = some PyVal.none) →
        nd.lookup k = Option.none → cd.lookup k = some dv →
        (fill_defaults inp nd cd).lookup k = some dv) ∧
    (k ∉ nd.map Prod.fst → k ∉ cd.map Prod.fst →
        (fill_defaults inp nd cd).lookup k = inp.lookup k) ∧
    ((k ∈ nd.map Prod.fst ∨ k ∈ cd.map Prod.fst) →
        ∃ v, (fill_defaults inp nd cd).lookup k = some v ∧ v ≠ PyVal.none) := by
  have hkept : ∀ v, inp.lookup k = some v → v ≠ PyVal.none →
      (fill_defaults inp nd cd).lookup k = some v := by
    intro v hv hvne
    exact fillFrom_lookup_kept _ _ _ _ (fillFrom_lookup_kept _ _ _ _ hv hvne) hvne
  have hnum : ∀ dv, (inp.lookup k = Option.none ∨ inp.lookup k = some PyVal.none) →
      nd.lookup k = some dv → (fill_defaults inp nd cd).lookup k = some dv := by
    intro dv hmiss hdv
    have hdvne : dv ≠ PyVal.none := hnd _ (PyDict.lookup_mem _ _ _ hdv)
    have h₁ : (fillFrom inp nd).lookup k = some dv :=
      fillFrom_lookup_filled _ _ _ _ hdv hmiss hdvne
    exact fillFrom_lookup_kept _ _ _ _ h₁ hdvne
  have hcat : ∀ dv, (inp.lookup k = Option.none ∨ inp.lookup k = some PyVal.none) →
      nd.lookup k = Option.none → cd.lookup k = some dv →
      (fill_defaults inp nd cd).lookup k = some dv := by
    intro dv hmiss hknd hdv
    have hknd₂ : k ∉ nd.map Prod.fst := (PyDict.lookup_eq_none_iff _ _).mp hknd
    have hdvne : dv ≠ PyVal.none := hcd _ (PyDict.lookup_mem _ _ _ hdv)
    have h₁ : (fillFrom inp nd).lookup k = inp.lookup k :=
      fillFrom_lookup_not_mem _ _ _ hknd₂
    refine fillFrom_lookup_filled _ _ _ _ hdv ?_ hdvne
    rw [h₁]; exact hmiss
  refine ⟨hkept, hnum, hcat, ?_, ?_⟩
  · intro h₁ h₂
    rw [fill_defaults, fillFrom_lookup_not_mem _ _ _ h₂,
      fillFrom_lookup_not_mem _ _ _ h₁]
  · intro hk
    have hfill : (inp.lookup k = Option.none ∨ inp.lookup k = some PyVal.none) →
        ∃ v, (fill_defaults inp nd cd).lookup k = some v ∧ v ≠ PyVal.none := by
      intro hmiss
      by_cases hknd : k ∈ nd.map Prod.fst
      · obtain ⟨dv, hdv⟩ := PyDict.lookup_isSome_of_mem_keys _ _ hknd
        exact ⟨dv, hnum dv hmiss hdv, hnd _ (PyDict.lookup_mem _ _ _ hdv)⟩
      · have hkcd : k ∈ cd.map Prod.fst := by
          rcases hk with h | h
          · exact absurd h hknd
          · exact h
        obtain ⟨dv, hdv⟩ := PyDict.lookup_isSome_of_mem_keys _ _ hkcd
        exact ⟨dv, hcat dv hmiss ((PyDict.lookup_eq_none_iff _ _).mpr hknd)
          hdv, hcd _ (PyDict.lookup_mem _ _ _ hdv)⟩
    rcases hres : inp.lookup k with _ | v
    · exact hfill (Or.inl hres)
    · by_cases hvn : v = PyVal.none
      · subst hvn
        exact hfill (Or.inr hres)
      · exact ⟨v, hkept v hres hvn, hvn⟩

-- The concrete mini-spec exercised by the specification's §8 scenario,
-- shared by several claims below.

def exNumericDefaults : PyDict := [("AGE", PyVal.int 75), ("MMSE_bl", PyVal.int 28)]

def exCategoricalDefaults : PyDict :=
  [("PTGENDER", PyVal.str "female"), ("APOE4", PyVal.int (-1))]

def exRawInput : PyDict := [("AGE", PyVal.int 81)]

def exFeatureOrder : List String := ["AGE", "MMSE_bl", "PTGENDER", "APOE4"]

def exNumericColumns : List String := ["AGE", "MMSE_bl"]

def exCategoricalColumns : List String := ["PTGENDER", "APOE4"]

/-- Witness for C6's amended theorem: on the §8 scenario the missing key
`MMSE_bl` receives its numeric default 28. -/
theorem fill_defaults_correct_witness :
    (fill_defaults exRawInput exNumericDefaults exCategoricalDefaults).lookup
      "MMSE_bl" = some (PyVal.int 28) :=
  (fill_defaults_correct exRawInput exNumericDefaults exCategoricalDefaults
      "MMSE_bl" (by decide) (by decide)).2.1
    (PyVal.int 28) (Or.inl (by decide)) (by decide)

/-- C7: the specification's concrete scenario.  With
`numeric_defaults = {AGE: 75, MMSE_bl: 28}`,
`categorical_defaults = {PTGENDER: "female", APOE4: -1}`,
`feature_order = [AGE, MMSE_bl, PTGENDER, APOE4]` and raw input
`{AGE: 81}`, `fill_defaults` yields
`{AGE: 81, MMSE_bl: 28, PTGENDER: "female", APOE4: -1}`, and
`preprocess_for_prediction` (no scaler) encodes `PTGENDER` to 1, passes
`APOE4` through unencoded, and returns exactly `[81, 28, 1, -1]`. -/
theorem concrete_scenario_fill_and_vector :
    fill_defaults exRawInput exNumericDefaults exCategoricalDefaults =
      [("AGE", PyVal.int 81), ("MMSE_bl", PyVal.int 28),
        ("PTGENDER", PyVal.str "female"), ("APOE4", PyVal.int (-1))] ∧
    preprocess_for_prediction exRawInput exNumericDefaults exCategoricalDefaults
        exFeatureOrder exNumericColumns exCategoricalColumns Option.none =
      Except.ok [PyVal.float 81, PyVal.float 28, PyVal.float 1,
        PyVal.float (-1)] := by
  exact ⟨rfl, by decide⟩

-- ============================================================
-- Infrastructure lemmas for the vector-order proofs
-- ============================================================

theorem exceptBind_ok {α β : Type} {a : Except String α}
    {f : α → Except String β} {b : β}
    (h : a >>= f = Except.ok b) : ∃ x, a = Except.ok x ∧ f x = Except.ok b := by
  cases a with
  | error e => exact absurd h (by simp [Bind.bind, Except.bind])
  | ok x => exact ⟨x, rfl, h⟩

theorem mapE_ok_length {α β : Type} (f : α → Except String β) (l : List α)
    (r : List β) (h : mapE f l = Except.ok r) : r.length = l.length := by
  induction l generalizing r with
  | nil =>
      simp only [mapE] at h
      cases h; rfl
  | cons a t ih =>
      simp only [mapE] at h
      obtain ⟨b, hb, h⟩ := exceptBind_ok h
      obtain ⟨rt, hrt, h⟩ := exceptBind_ok h
      cases h
      simp [ih _ hrt]

theorem mapE_ok_get {α β : Type} (f : α → Except String β) (l : List α)
    (r : List β) (h : mapE f l = Except.ok r) :
    ∀ i (hi : i < l.length) (hr : i < r.length),
      f (l.get ⟨i, hi⟩) = Except.ok (r.get ⟨i, hr⟩) := by
  induction l generalizing r with
  | nil => intro i hi; simp at hi
  | cons a t ih =>
      simp only [mapE] at h
      obtain ⟨b, hb, h⟩ := exceptBind_ok h
      obtain ⟨rt, hrt, h⟩ := exceptBind_ok h
      cases h
      intro i hi hr
      cases i with
      | zero => exact hb
      | succ j =>
          exact ih rt hrt j (Nat.lt_of_succ_lt_succ hi)
            (Nat.lt_of_succ_lt_succ hr)

theorem insertPairs_lookup_not_mem (d : PyDict) (ps : List (String × PyVal))
    (k : String) (hk : k ∉ ps.map Prod.fst) :
    (insertPairs d ps).lookup k = d.lookup k := by
  induction ps generalizing d with
  | nil => rfl
  | cons p rest ih =>
      simp only [List.map_cons, List.mem_cons] at hk
      push_neg at hk
      obtain ⟨hne, hrest⟩ := hk
      simp only [insertPairs]
      rw [ih _ hrest, PyDict.lookup_insert, if_neg hne]

theorem insertPairs_lookup_mem_nodup (d : PyDict) (ps : List (String × PyVal))
    (k : String) (v : PyVal) (hnd : (ps.map Prod.fst).Nodup)
    (hmem : (k, v) ∈ ps) :
    (insertPairs d ps).lookup k = some v := by
  induction ps generalizing d with
  | nil => simp at hmem
  | cons p rest ih =>
      simp only [List.map_cons, List.nodup_cons] at hnd
      obtain ⟨hp, hrest⟩ := hnd
      rcases List.mem_cons.mp hmem with h | h
      · subst h
        simp only [insertPairs]
        have hknotin : k ∉ rest.map Prod.fst := hp
        rw [insertPairs_lookup_not_mem _ _ _ hknotin,
          PyDict.lookup_insert, if_pos rfl]
      · exact ih _ hrest h

theorem zip_get_mem {α β : Type} (l₁ : List α) (l₂ : List β) :
    ∀ i (h₁ : i < l₁.length) (h₂ : i < l₂.length),
      (l₁.get ⟨i, h₁⟩, l₂.get ⟨i, h₂⟩) ∈ l₁.zip l₂ := by
  induction l₁ generalizing l₂ with
  | nil => intro i h₁; simp at h₁
  | cons a t ih =>
      intro i h₁ h₂
      cases l₂ with
      | nil => simp at h₂
      | cons b t₂ =>
          cases i with
          | zero => simp [List.zip]
          | succ j =>
              have := ih t₂ j (Nat.lt_of_succ_lt_succ h₁)
                (Nat.lt_of_succ_lt_succ h₂)
              simp only [List.zip_cons_cons, List.get]
              exact List.mem_cons_of_mem _ this

/-- The filled-and-gender-encoded input ("EncodedInput" in the spec): the
dict both preprocessors hold after `fill_defaults` and the `PTGENDER`
encoding loop. -/
def encodedInput (input_data nd cd : PyDict) (categorical_columns : List String) :
    Except String PyDict :=
  applyGenderEncoding categorical_columns (fill_defaults input_data nd cd)

/-- The scaled numeric row: extract `numeric_columns` from the encoded input
and run the numeric stage (float conversion plus optional scaler). -/
def scaledNumericRow (input_data nd cd : PyDict)
    (numeric_columns categorical_columns : List String)
    (scaler : Option (List PyVal → List PyVal)) : Except String (List PyVal) := do
  let d ← encodedInput input_data nd cd categorical_columns
  let nums ← extractCols d numeric_columns "numeric"
  scaleNumeric scaler nums

theorem extractCols_ok_lookup (d : PyDict) (cols : List String) (kind : String)
    (vals : List PyVal) (h : extractCols d cols kind = Except.ok vals)
    (j : ℕ) (hj : j < cols.length) (hvj : j < vals.length) :
    d.lookup (cols.get ⟨j, hj⟩) = some (vals.get ⟨j, hvj⟩) := by
  have := mapE_ok_get _ _ _ h j hj hvj
  rcases hl : d.lookup (cols.get ⟨j, hj⟩) with _ | v
  · rw [hl] at this
    exact absurd this (by simp)
  · rw [hl] at this
    have hv : v = vals.get ⟨j, hvj⟩ := by injection this
    rw [hv]

theorem scaleNumeric_ok_length (scaler : Option (List PyVal → List PyVal))
    (hscaler : ∀ s, scaler = some s → ∀ l, (s l).length = l.length)
    (nums row : List PyVal) (h : scaleNumeric scaler nums = Except.ok row) :
    row.length = nums.length := by
  rw [scaleNumeric] at h
  obtain ⟨converted, hc, h⟩ := exceptBind_ok h
  have hlen : converted.length = nums.length := mapE_ok_length _ _ _ hc
  cases hs : scaler with
  | none =>
      rw [hs] at h
      cases h
      exact hlen
  | some s =>
      rw [hs] at h
      cases h
      rw [hscaler s hs converted, hlen]

/-- C2: the vector-order invariant of `preprocess_for_prediction`.  For a
well-formed `FeatureSpec` (`feature_order` a permutation of the disjoint
union of `numeric_columns` and `categorical_columns`) and a length-preserving
scaler, whenever the builder returns a vector, the vector has exactly
`feature_order.length` entries, and the entry at position `i` is the value of
feature `feature_order[i]`: the float image of its encoded categorical value
when it is a categorical column, and the scaled numeric value at its index in
`numeric_columns` when it is a numeric column. -/
theorem preprocess_vector_order
    (input_data nd cd : PyDict)
    (feature_order numeric_columns categorical_columns : List String)
    (scaler : Option (List PyVal → List PyVal)) (X : List PyVal)
    (hndN : numeric_columns.Nodup) (hndC : categorical_columns.Nodup)
    (hdisj : ∀ f ∈ numeric_columns, f ∉ categorical_columns)
    (_hperm : ∀ f, f ∈ feature_order ↔
      (f ∈ numeric_columns ∨ f ∈ categorical_columns))
    (hscaler : ∀ s, scaler = some s → ∀ l, (s l).length = l.length)
    (hok : preprocess_for_prediction input_data nd cd feature_order
      numeric_columns categorical_columns scaler = Except.ok X) :
    X.length = feature_order.length ∧
    ∀ i (hi : i < feature_order.length) (hXi : i < X.length),
      (feature_order.get ⟨i, hi⟩ ∈ categorical_columns →
        ∃ d v, encodedInput input_data nd cd categorical_columns =
            Except.ok d ∧
          d.lookup (feature_order.get ⟨i, hi⟩) = some v ∧
          toPyFloat v = Except.ok (X.get ⟨i, hXi⟩)) ∧
      (feature_order.get ⟨i, hi⟩ ∈ numeric_columns →
        ∃ row, scaledNumericRow input_data nd cd numeric_columns
            categorical_columns scaler = Except.ok row ∧
          row.length = numeric_columns.length ∧
          ∀ j (hj : j < numeric_columns.length) (hrj : j < row.length),
            numeric_columns.get ⟨j, hj⟩ = feature_order.get ⟨i, hi⟩ →
            toPyFloat (row.get ⟨j, hrj⟩) = Except.ok (X.get ⟨i, hXi⟩)) := by
  rw [preprocess_for_prediction] at hok
  obtain ⟨d, h1, hok⟩ := exceptBind_ok hok
  obtain ⟨nums, h2, hok⟩ := exceptBind_ok hok
  obtain ⟨row, h3, hok⟩ := exceptBind_ok hok
  obtain ⟨cats, h4, hok⟩ := exceptBind_ok hok
  obtain ⟨feats, h5, hok⟩ := exceptBind_ok hok
  obtain ⟨X₀, h6, hok⟩ := exceptBind_ok hok
  have hX : X₀ = X := by
    by_cases hlen : X₀.length ≠ feature_order.length
    · rw [if_pos hlen] at hok
      exact absurd hok (by simp)
    · rw [if_neg hlen] at hok
      injection hok
  rw [hX] at h6
  have hnums_len : nums.length = numeric_columns.length := mapE_ok_length _ _ _ h2
  have hrow_len : row.length = numeric_columns.length := by
    rw [scaleNumeric_ok_length scaler hscaler nums row h3, hnums_len]
  have hcats_len : cats.length = categorical_columns.length := mapE_ok_length _ _ _ h4
  have hfeats_len : feats.length = feature_order.length := mapE_ok_length _ _ _ h5
  have hX_len : X.length = feats.length := mapE_ok_length _ _ _ h6
  have hXlen : X.length = feature_order.length := by rw [hX_len, hfeats_len]
  refine ⟨hXlen, ?_⟩
  intro i hi hXi
  have hfi : i < feats.length := by rw [hfeats_len]; exact hi
  -- the projection stage at position i
  have hproj := mapE_ok_get _ _ _ h5 i hi hfi
  have hfd : (buildFeatureDict numeric_columns row categorical_columns
      cats).lookup (feature_order.get ⟨i, hi⟩) = some (feats.get ⟨i, hfi⟩) := by
    rcases hl : (buildFeatureDict numeric_columns row categorical_columns
        cats).lookup (feature_order.get ⟨i, hi⟩) with _ | v
    · rw [hl] at hproj
      exact absurd hproj (by simp)
    · rw [hl] at hproj
      have hv : v = feats.get ⟨i, hfi⟩ := by injection hproj
      rw [hv]
  -- the float-conversion stage at position i
  have hconv := mapE_ok_get _ _ _ h6 i hfi hXi
  have hmapfstcat : (categorical_columns.zip cats).map Prod.fst =
      categorical_columns :=
    List.map_fst_zip _ _ (le_of_eq hcats_len.symm)
  constructor
  · -- categorical case
    intro hc
    obtain ⟨jc, hgetjc⟩ := List.mem_iff_get.mp hc
    obtain ⟨jcn, hjcv⟩ := jc
    have hjcc : jcn < cats.length := by rw [hcats_len]; exact hjcv
    have hpair := zip_get_mem categorical_columns cats jcn hjcv hjcc
    rw [hgetjc] at hpair
    have hlk : (buildFeatureDict numeric_columns row categorical_columns
        cats).lookup (feature_order.get ⟨i, hi⟩) =
        some (cats.get ⟨jcn, hjcc⟩) := by
      rw [buildFeatureDict]
      refine insertPairs_lookup_mem_nodup _ _ _ _ ?_ hpair
      rw [hmapfstcat]
      exact hndC
    have hveq : cats.get ⟨jcn, hjcc⟩ = feats.get ⟨i, hfi⟩ := by
      rw [hlk] at hfd
      injection hfd
    have hdl : d.lookup (feature_order.get ⟨i, hi⟩) =
        some (cats.get ⟨jcn, hjcc⟩) := by
      have := extractCols_ok_lookup d categorical_columns "categorical" cats
        h4 jcn hjcv hjcc
      rw [hgetjc] at this
      exact this
    exact ⟨d, cats.get ⟨jcn, hjcc⟩, h1, hdl, by rw [hveq]; exact hconv⟩
  · -- numeric case
    intro hn
    have hnc : feature_order.get ⟨i, hi⟩ ∉ categorical_columns :=
      hdisj _ hn
    refine ⟨row, ?_, hrow_len, ?_⟩
    · rw [scaledNumericRow, encodedInput, h1]
      show extractCols d numeric_columns "numeric" >>=
        scaleNumeric scaler = Except.ok row
      rw [h2]
      show scaleNumeric scaler nums = Except.ok row
      exact h3
    · intro j hj hrj hgetj
      have hpair := zip_get_mem numeric_columns row j hj hrj
      rw [hgetj] at hpair
      have hnotcat : feature_order.get ⟨i, hi⟩ ∉
          (categorical_columns.zip cats).map Prod.fst := by
        rw [hmapfstcat]; exact hnc
      have hlk : (buildFeatureDict numeric_columns row categorical_columns
          cats).lookup (feature_order.get ⟨i, hi⟩) =
          some (row.get ⟨j, hrj⟩) := by
        rw [buildFeatureDict, insertPairs_lookup_not_mem _ _ _ hnotcat]
        refine insertPairs_lookup_mem_nodup _ _ _ _ ?_ hpair
        rw [List.map_fst_zip _ _ (le_of_eq hrow_len.symm)]
        exact hndN
      have hveq : row.get ⟨j, hrj⟩ = feats.get ⟨i, hfi⟩ := by
        rw [hlk] at hfd
        injection hfd
      rw [hveq]
      exact hconv

/-- Witness for C2's theorem at the specification's §8 scenario (no scaler):
the returned vector `[81, 28, 1, -1]` has the length of `feature_order`. -/
theorem preprocess_vector_order_witness :
    ([PyVal.float 81, PyVal.float 28, PyVal.float 1,
      PyVal.float (-1)] : List PyVal).length = exFeatureOrder.length :=
  (preprocess_vector_order exRawInput exNumericDefaults exCategoricalDefaults
    exFeatureOrder exNumericColumns exCategoricalColumns Option.none
    [PyVal.float 81, PyVal.float 28, PyVal.float 1, PyVal.float (-1)]
    (by decide) (by decide) (by decide)
    (by
      intro f
      simp only [exFeatureOrder, exNumericColumns, exCategoricalColumns,
        List.mem_cons, List.not_mem_nil, or_false]
      tauto)
    (by intro s h; exact absurd h (by simp))
    (by decide)).1

-- The C3 scenario: the §8 spec with `AGE` removed from both
-- `numeric_columns` and `numeric_defaults` (so the ordered feature `AGE`
-- has no source), exactly as the claim constructs it.

def c3NumericDefaults : PyDict := [("MMSE_bl", PyVal.int 28)]

def c3NumericColumns : List String := ["MMSE_bl"]

/-- C3: the claim (and spec §4.3 step 5) says BOTH preprocessors raise a
construction error naming the missing feature.  The array path does
(`ValueError` naming `AGE`), but the dataframe path's
`pd.DataFrame([feature_dict], columns=feature_order)` silently fills the
missing `AGE` column with `NaN` — pandas raises no `KeyError` there, so the
source's `except KeyError` conversion branch is dead code and the function
returns a NaN-padded row instead of raising. -/
theorem missing_feature_array_raises_df_pads :
    preprocess_for_prediction exRawInput c3NumericDefaults
        exCategoricalDefaults exFeatureOrder c3NumericColumns
        exCategoricalColumns Option.none =
      Except.error
        "Feature 'AGE' in feature_order not found in processed features." ∧
    preprocess_for_prediction_dataframe exRawInput c3NumericDefaults
        exCategoricalDefaults exFeatureOrder c3NumericColumns
        exCategoricalColumns Option.none =
      Except.ok [PyVal.nan, PyVal.int 28, PyVal.int 1, PyVal.int (-1)] := by
  exact ⟨by decide, by decide⟩

/-- C8 (counterexample): the claim says the two preprocessors raise on
exactly the same inputs and agree bit-for-bit; but on a `feature_order` name
sourced by neither column list the array path raises while the dataframe
path returns a NaN-padded row — the two paths neither raise together nor
return identical representations. -/
theorem preprocess_paths_disagree :
    preprocess_for_prediction [] [] [] ["Z"] [] [] Option.none =
      Except.error
        "Feature 'Z' in feature_order not found in processed features." ∧
    preprocess_for_prediction_dataframe [] [] [] ["Z"] [] [] Option.none =
      Except.ok [PyVal.nan] := by
  exact ⟨by decide, by decide⟩

-- Positional characterisation of `feature_dict` lookups, shared by the
-- path-agreement proof.

theorem mem_map_fst_zip {α β : Type} (k : α) (l₁ : List α) (l₂ : List β)
    (h : k ∈ (l₁.zip l₂).map Prod.fst) : k ∈ l₁ := by
  obtain ⟨p, hp, hk⟩ := List.mem_map.mp h
  obtain ⟨a, b⟩ := p
  subst hk
  exact (List.of_mem_zip hp).1

theorem buildFeatureDict_lookup_cat (N : List String) (row : List PyVal)
    (C : List String) (cats : List PyVal) (hndC : C.Nodup)
    (hlen : cats.length = C.length) (jc : ℕ) (hjc : jc < C.length)
    (hjcc : jc < cats.length) :
    (buildFeatureDict N row C cats).lookup (C.get ⟨jc, hjc⟩) =
      some (cats.get ⟨jc, hjcc⟩) := by
  rw [buildFeatureDict]
  refine insertPairs_lookup_mem_nodup _ _ _ _ ?_
    (zip_get_mem C cats jc hjc hjcc)
  rw [List.map_fst_zip _ _ (le_of_eq hlen.symm)]
  exact hndC

theorem buildFeatureDict_lookup_num (N : List String) (row : List PyVal)
    (C : List String) (cats : List PyVal) (hndN : N.Nodup)
    (hlen : row.length = N.length) (j : ℕ) (hj : j < N.length)
    (hrj : j < row.length) (hnc : N.get ⟨j, hj⟩ ∉ C) :
    (buildFeatureDict N row C cats).lookup (N.get ⟨j, hj⟩) =
      some (row.get ⟨j, hrj⟩) := by
  rw [buildFeatureDict]
  have hnotcat : N.get ⟨j, hj⟩ ∉ (C.zip cats).map Prod.fst := fun h =>
    hnc (mem_map_fst_zip _ _ _ h)
  rw [insertPairs_lookup_not_mem _ _ _ hnotcat]
  refine insertPairs_lookup_mem_nodup _ _ _ _ ?_
    (zip_get_mem N row j hj hrj)
  rw [List.map_fst_zip _ _ (le_of_eq hlen.symm)]
  exact hndN

/-- A key bound in `buildFeatureDict` comes from one of the two column
lists. -/
theorem buildFeatureDict_lookup_mem (N : List String) (row : List PyVal)
    (C : List String) (cats : List PyVal) (k : String) (w : PyVal)
    (h : (buildFeatureDict N row C cats).lookup k = some w) :
    k ∈ N ∨ k ∈ C := by
  by_contra hcon
  push_neg at hcon
  obtain ⟨hn, hc⟩ := hcon
  have h₁ : k ∉ (C.zip cats).map Prod.fst := fun hm => hc (mem_map_fst_zip _ _ _ hm)
  have h₂ : k ∉ (N.zip row).map Prod.fst := fun hm => hn (mem_map_fst_zip _ _ _ hm)
  rw [buildFeatureDict, insertPairs_lookup_not_mem _ _ _ h₁,
    insertPairs_lookup_not_mem _ _ _ h₂] at h
  exact absurd h (by simp [PyDict.lookup])

/-- Conversion `np.array(..., dtype=float)` is idempotent: converting an
already converted value returns it unchanged. -/
theorem toPyFloat_idem (u w : PyVal) (h : toPyFloat u = Except.ok w) :
    toPyFloat w = Except.ok w := by
  cases u with
  | none => cases h; rfl
  | bool b => cases h; rfl
  | int n => cases h; rfl
  | float q => cases h; rfl
  | nan => cases h; rfl
  | str s =>
      rw [toPyFloat] at h
      rcases hs : s.toInt? with _ | n
      · rw [hs] at h
        exact absurd h (by simp)
      · rw [hs] at h
        cases h
        rfl

theorem ok_bind {α β : Type} (x : α) (f : α → Except String β) :
    (Except.ok x >>= f : Except String β) = f x := rfl

theorem error_bind {α β : Type} (e : String) (f : α → Except String β) :
    (Except.error e >>= f : Except String β) = Except.error e := rfl

/-- Per-feature agreement of the two `feature_dict`s: with duplicate-free,
disjoint column lists, equal-length rows, and the dataframe-path numeric row
related to the array-path one by float conversion (or equality), any feature
the array path resolves is resolved by the dataframe path to a value whose
float image is the array path's converted entry. -/
theorem paths_agree_at_name
    (numeric_columns categorical_columns : List String)
    (rowA rowD cats : List PyVal) (name : String) (w Xi : PyVal)
    (hndN : numeric_columns.Nodup) (hndC : categorical_columns.Nodup)
    (hlenA : rowA.length = numeric_columns.length)
    (hlenD : rowD.length = numeric_columns.length)
    (hcats_len : cats.length = categorical_columns.length)
    (hrel : ∀ j (hjD : j < rowD.length) (hjA : j < rowA.length),
        toPyFloat (rowD.get ⟨j, hjD⟩) = Except.ok (rowA.get ⟨j, hjA⟩) ∨
        rowD.get ⟨j, hjD⟩ = rowA.get ⟨j, hjA⟩)
    (hfdA : (buildFeatureDict numeric_columns rowA categorical_columns
      cats).lookup name = some w)
    (hconv : toPyFloat w = Except.ok Xi) :
    toPyFloat (((buildFeatureDict numeric_columns rowD categorical_columns
      cats).lookup name).getD PyVal.nan) = Except.ok Xi := by
  have hmem := buildFeatureDict_lookup_mem _ _ _ _ _ _ hfdA
  by_cases hc : name ∈ categorical_columns
  · obtain ⟨jc, hgetjc⟩ := List.mem_iff_get.mp hc
    obtain ⟨jcn, hjcv⟩ := jc
    have hjcc : jcn < cats.length := by rw [hcats_len]; exact hjcv
    have hA := buildFeatureDict_lookup_cat numeric_columns rowA
      categorical_columns cats hndC hcats_len jcn hjcv hjcc
    have hD := buildFeatureDict_lookup_cat numeric_columns rowD
      categorical_columns cats hndC hcats_len jcn hjcv hjcc
    rw [hgetjc] at hA hD
    rw [hA] at hfdA
    have hw : cats.get ⟨jcn, hjcc⟩ = w := by injection hfdA
    rw [hD, Option.getD_some, hw]
    exact hconv
  · have hn : name ∈ numeric_columns := by
      rcases hmem with h | h
      · exact h
      · exact absurd h hc
    obtain ⟨j, hgetj⟩ := List.mem_iff_get.mp hn
    obtain ⟨jn, hjv⟩ := j
    have hjA : jn < rowA.length := by rw [hlenA]; exact hjv
    have hjD : jn < rowD.length := by rw [hlenD]; exact hjv
    have hA := buildFeatureDict_lookup_num numeric_columns rowA
      categorical_columns cats hndN hlenA jn hjv hjA
      (by rw [hgetj]; exact hc)
    have hD := buildFeatureDict_lookup_num numeric_columns rowD
      categorical_columns cats hndN hlenD jn hjv hjD
      (by rw [hgetj]; exact hc)
    rw [hgetj] at hA hD
    rw [hA] at hfdA
    have hw : rowA.get ⟨jn, hjA⟩ = w := by injection hfdA
    rw [hD, Option.getD_some]
    rcases hrel jn hjD hjA with h | h
    · rw [hw] at h
      have hidem := toPyFloat_idem _ _ h
      rw [hconv] at hidem
      have hXiw : Xi = w := by injection hidem
      rw [h, hXiw]
    · rw [h, hw]
      exact hconv

/-- C8 (amended): for a well-formed `FeatureSpec` (duplicate-free, disjoint
column lists) and a length-preserving scaler, whenever the numpy path
`preprocess_for_prediction` returns a vector `X`, the pandas path
`preprocess_for_prediction_dataframe` also succeeds on the same input,
returning a row of the same length that agrees with `X` position by position
up to the numpy path's float coercion (`toPyFloat R[i] = X[i]`; the
dataframe keeps raw representations where the array is float-coerced).
The unrestricted claim — bit-for-bit equal values and identical raising
behaviour on every input — is refuted by `preprocess_paths_disagree`. -/
theorem preprocess_paths_agree_when_array_succeeds
    (input_data nd cd : PyDict)
    (feature_order numeric_columns categorical_columns : List String)
    (scaler : Option (List PyVal → List PyVal)) (X : List PyVal)
    (hndN : numeric_columns.Nodup) (hndC : categorical_columns.Nodup)
    (_hdisj : ∀ f ∈ numeric_columns, f ∉ categorical_columns)
    (hscaler : ∀ s, scaler = some s → ∀ l, (s l).length = l.length)
    (hok : preprocess_for_prediction input_data nd cd feature_order
      numeric_columns categorical_columns scaler = Except.ok X) :
    ∃ R, preprocess_for_prediction_dataframe input_data nd cd feature_order
        numeric_columns categorical_columns scaler = Except.ok R ∧
      R.length = X.length ∧
      ∀ i (hi : i < R.length) (hXi : i < X.length),
        toPyFloat (R.get ⟨i, hi⟩) = Except.ok (X.get ⟨i, hXi⟩) := by
  rw [preprocess_for_prediction] at hok
  obtain ⟨d, h1, hok⟩ := exceptBind_ok hok
  obtain ⟨nums, h2, hok⟩ := exceptBind_ok hok
  obtain ⟨rowA, h3, hok⟩ := exceptBind_ok hok
  obtain ⟨cats, h4, hok⟩ := exceptBind_ok hok
  obtain ⟨feats, h5, hok⟩ := exceptBind_ok hok
  obtain ⟨X₀, h6, hok⟩ := exceptBind_ok hok
  have hX : X₀ = X := by
    by_cases hlen : X₀.length ≠ feature_order.length
    · rw [if_pos hlen] at hok
      exact absurd hok (by simp)
    · rw [if_neg hlen] at hok
      injection hok
  rw [hX] at h6
  have hnums_len : nums.length = numeric_columns.length := mapE_ok_length _ _ _ h2
  have hrowA_len : rowA.length = numeric_columns.length := by
    rw [scaleNumeric_ok_length scaler hscaler nums rowA h3, hnums_len]
  have hcats_len : cats.length = categorical_columns.length := mapE_ok_length _ _ _ h4
  have hfeats_len : feats.length = feature_order.length := mapE_ok_length _ _ _ h5
  have hXlen : X.length = feature_order.length := by
    rw [mapE_ok_length _ _ _ h6, hfeats_len]
  rw [scaleNumeric] at h3
  obtain ⟨converted, hcv, h3⟩ := exceptBind_ok h3
  -- facts at one projection position, shared by both scaler branches
  have hpos : ∀ i (hi : i < feature_order.length) (hXi : i < X.length),
      ∃ w, (buildFeatureDict numeric_columns rowA categorical_columns
          cats).lookup (feature_order.get ⟨i, hi⟩) = some w ∧
        toPyFloat w = Except.ok (X.get ⟨i, hXi⟩) := by
    intro i hi hXi
    have hfi : i < feats.length := by rw [hfeats_len]; exact hi
    have hproj := mapE_ok_get _ _ _ h5 i hi hfi
    have hconv := mapE_ok_get _ _ _ h6 i hfi hXi
    rcases hl : (buildFeatureDict numeric_columns rowA categorical_columns
        cats).lookup (feature_order.get ⟨i, hi⟩) with _ | v
    · rw [hl] at hproj
      exact absurd hproj (by simp)
    · rw [hl] at hproj
      have hv : v = feats.get ⟨i, hfi⟩ := by injection hproj
      exact ⟨v, rfl, by rw [hv]; exact hconv⟩
  cases scaler with
  | none =>
      have hrowA_eq : rowA = converted := by
        have h' : converted = rowA := by injection h3
        exact h'.symm
      subst hrowA_eq
      refine ⟨feature_order.map (fun f =>
        ((buildFeatureDict numeric_columns nums categorical_columns
          cats).lookup f).getD PyVal.nan), ?_, ?_, ?_⟩
      · rw [preprocess_for_prediction_dataframe, h1, ok_bind, h2, ok_bind]
        have hdf : scaleNumericDF Option.none nums = Except.ok nums := rfl
        rw [hdf, ok_bind, h4, ok_bind]
      · rw [List.length_map, hXlen]
      · intro i hi hXi
        have hio : i < feature_order.length := by
          rw [List.length_map] at hi
          exact hi
        have hgr : (feature_order.map (fun f =>
            ((buildFeatureDict numeric_columns nums categorical_columns
              cats).lookup f).getD PyVal.nan)).get ⟨i, hi⟩ =
            ((buildFeatureDict numeric_columns nums categorical_columns
              cats).lookup (feature_order.get ⟨i, hio⟩)).getD PyVal.nan := by
          simp [List.get_eq_getElem, List.getElem_map]
        rw [hgr]
        obtain ⟨w, hw, hwc⟩ := hpos i hio hXi
        refine paths_agree_at_name numeric_columns categorical_columns rowA
          nums cats (feature_order.get ⟨i, hio⟩) w (X.get ⟨i, hXi⟩)
          hndN hndC hrowA_len hnums_len hcats_len ?_ hw hwc
        intro j hjD hjA
        exact Or.inl (mapE_ok_get _ _ _ hcv j hjD hjA)
  | some s =>
      have hrowA_eq : s converted = rowA := by injection h3
      refine ⟨feature_order.map (fun f =>
        ((buildFeatureDict numeric_columns rowA categorical_columns
          cats).lookup f).getD PyVal.nan), ?_, ?_, ?_⟩
      · rw [preprocess_for_prediction_dataframe, h1, ok_bind, h2, ok_bind]
        have hdf : scaleNumericDF (some s) nums = Except.ok rowA := by
          rw [scaleNumericDF, hcv, ok_bind, hrowA_eq]
        rw [hdf, ok_bind, h4, ok_bind]
      · rw [List.length_map, hXlen]
      · intro i hi hXi
        have hio : i < feature_order.length := by
          rw [List.length_map] at hi
          exact hi
        have hgr : (feature_order.map (fun f =>
            ((buildFeatureDict numeric_columns rowA categorical_columns
              cats).lookup f).getD PyVal.nan)).get ⟨i, hi⟩ =
            ((buildFeatureDict numeric_columns rowA categorical_columns
              cats).lookup (feature_order.get ⟨i, hio⟩)).getD PyVal.nan := by
          simp [List.get_eq_getElem, List.getElem_map]
        rw [hgr]
        obtain ⟨w, hw, hwc⟩ := hpos i hio hXi
        refine paths_agree_at_name numeric_columns categorical_columns rowA
          rowA cats (feature_order.get ⟨i, hio⟩) w (X.get ⟨i, hXi⟩)
          hndN hndC hrowA_len hrowA_len hcats_len ?_ hw hwc
        intro j hjD hjA
        right
        rfl

/-- Witness for C8's amended theorem at the §8 scenario (no scaler). -/
theorem preprocess_paths_agree_witness :
    ∃ R, preprocess_for_prediction_dataframe exRawInput exNumericDefaults
        exCategoricalDefaults exFeatureOrder exNumericColumns
        exCategoricalColumns Option.none = Except.ok R ∧
      R.length = ([PyVal.float 81, PyVal.float 28, PyVal.float 1,
        PyVal.float (-1)] : List PyVal).length ∧
      ∀ i (hi : i < R.length)
        (hXi : i < ([PyVal.float 81, PyVal.float 28, PyVal.float 1,
          PyVal.float (-1)] : List PyVal).length),
        toPyFloat (R.get ⟨i, hi⟩) =
          Except.ok (([PyVal.float 81, PyVal.float 28, PyVal.float 1,
            PyVal.float (-1)] : List PyVal).get ⟨i, hXi⟩) :=
  preprocess_paths_agree_when_array_succeeds exRawInput exNumericDefaults
    exCategoricalDefaults exFeatureOrder exNumericColumns exCategoricalColumns
    Option.none [PyVal.float 81, PyVal.float 28, PyVal.float 1, PyVal.float (-1)]
    (by decide) (by decide) (by decide)
    (by intro s h; exact absurd h (by simp)) (by decide)

-- ============================================================
-- Result Cache (`backend/app/services/alzheimer/cache.py`)
-- ============================================================

/-- An argument passed to a cached function: a JSON-representable scalar, or
an arbitrary object (e.g. a pydantic schema instance) whose `str()` is what
`json.dumps(..., default=str)` serializes instead of raising. -/
inductive PyArg where
  | val (v : PyVal)
  | obj (s : String)
  deriving DecidableEq, Repr

/-- JSON text of one scalar (`json.dumps` of a leaf). -/
def jsonOfPyVal : PyVal → String
  | PyVal.none => "null"
  | PyVal.bool b => if b then "true" else "false"
  | PyVal.int n => toString n
  | PyVal.float q => toString q
  | PyVal.nan => "NaN"
  | PyVal.str s => "\"" ++ s ++ "\""

/-- JSON text of one argument; a non-serializable object falls back to its
string representation (the `default=str` path), emitted as a JSON string. -/
def jsonOfArg : PyArg → String
  | PyArg.val v => jsonOfPyVal v
  | PyArg.obj s => "\"" ++ s ++ "\""

def joinComma : List String → String
  | [] => ""
  | [s] => s
  | s :: rest => s ++ ", " ++ joinComma rest

/-- Embedding of `_make_key` from `cache.py`: a digest of
`json.dumps(\x7b"args": (func.__name__, *args), "kwargs": kwargs\x7d,
sort_keys=True, default=str)` — the call sites pass no kwargs.  The
cryptographic digest (`hashlib.sha256(...).hexdigest()`) is abstracted as an
arbitrary function of the serialized text, which is all the cache properties
depend on. -/
def make_key (digest : String → String) (fname : String)
    (args : List PyArg) : String :=
  digest ("\x7b\"args\": [" ++
    joinComma ((PyArg.val (PyVal.str fname) :: args).map jsonOfArg) ++
    "], \"kwargs\": \x7b\x7d\x7d")

def cacheLookup {Out : Type} (c : List (String × Out)) (k : String) :
    Option Out :=
  match c with
  | [] => Option.none
  | (k₁, v) :: rest => if k = k₁ then some v else cacheLookup rest k

/-- Outcome of one call through the `cache_result` wrapper: the returned
value, the cache afterwards, and how many times the wrapped function was
actually invoked (0 on a hit, 1 on a miss). -/
structure CacheCallResult (Out : Type) where
  value : Out
  cacheAfter : List (String × Out)
  calls : ℕ
  deriving Repr

/-- One call of the wrapper produced by `cache_result(func)`: compute the
key from `func.__name__` and the arguments, return the cached value on a
hit without invoking `func`; on a miss invoke `func`, store on success, and
propagate a raised exception without storing anything. -/
def cache_result_call {In Out : Type} (digest : String → String)
    (fname : String) (serialize : In → PyArg)
    (func : In → Except String Out) (cache : List (String × Out)) (x : In) :
    Except String (CacheCallResult Out) :=
  let key := make_key digest fname [serialize x]
  match cacheLookup cache key with
  | some v => Except.ok ⟨v, cache, 0⟩
  | Option.none =>
      match func x with
      | Except.ok v => Except.ok ⟨v, (key, v) :: cache, 1⟩
      | Except.error e => Except.error e

/-- C9: cache idempotence.  If the key of `x` is not yet cached and the
wrapped function returns `v` on `x`, then the first wrapped call invokes the
function exactly once and returns `v`, and a second call — with `x` itself or
with any argument that serializes identically (the key is a function of
`func.__name__` and the canonical serialization only) — performs zero
further invocations and returns the same `v`, leaving the cache unchanged. -/
theorem cache_result_idempotent {In Out : Type} (digest : String → String)
    (fname : String) (serialize : In → PyArg) (func : In → Except String Out)
    (cache : List (String × Out)) (x : In) (v : Out)
    (hmiss : cacheLookup cache (make_key digest fname [serialize x]) =
      Option.none)
    (hv : func x = Except.ok v) :
    cache_result_call digest fname serialize func cache x =
      Except.ok ⟨v, (make_key digest fname [serialize x], v) :: cache, 1⟩ ∧
    ∀ y, serialize y = serialize x →
      cache_result_call digest fname serialize func
          ((make_key digest fname [serialize x], v) :: cache) y =
        Except.ok ⟨v, (make_key digest fname [serialize x], v) :: cache, 0⟩ := by
  constructor
  · rw [cache_result_call]
    simp only [hmiss, hv]
  · intro y hy
    rw [cache_result_call]
    simp [hy, cacheLookup]

/-- Witness for C9's theorem: a concrete function cached under the identity
digest, called on `3` twice. -/
theorem cache_result_idempotent_witness :
    cache_result_call (fun s => s) "predict" PyArg.val
        (fun _ : PyVal => Except.ok (7 : ℤ)) [] (PyVal.int 3) =
      Except.ok ⟨7, [(make_key (fun s => s) "predict" [PyArg.val (PyVal.int 3)],
        7)], 1⟩ ∧
    ∀ y, PyArg.val y = PyArg.val (PyVal.int 3) →
      cache_result_call (fun s => s) "predict" PyArg.val
          (fun _ : PyVal => Except.ok (7 : ℤ))
          [(make_key (fun s => s) "predict" [PyArg.val (PyVal.int 3)], 7)] y =
        Except.ok ⟨7, [(make_key (fun s => s) "predict"
          [PyArg.val (PyVal.int 3)], 7)], 0⟩ :=
  cache_result_idempotent (fun s => s) "predict" PyArg.val
    (fun _ => Except.ok 7) [] (PyVal.int 3) 7 rfl rfl

-- ============================================================
-- Assessment Pipeline Orchestrator
-- (`backend/app/services/assessment_pipeline.py`)
-- ============================================================

/-- One persisted assessment row as `AssessmentRepository.create` receives
it from `run_assessment_pipeline`.  `input_data` and `result` hold the
JSON-safe serializations (`model_dump(mode="json")`), abstracted as strings;
ids are abstracted as strings.  (`id` and `created_at` are assigned by the
storage layer and carry no pipeline logic.) -/
structure AssessmentRecord where
  specialty : String
  assessment_type : String
  patient_id : Option String
  clinician_id : String
  input_data : String
  result : String
  algorithm_version : String
  status : String
  deriving DecidableEq, Repr

/-- The observable outcome of one `run_assessment_pipeline` call: the list
of records the repository durably created (empty when `create` raised,
since the single `add`+`commit` rolls back), the cache afterwards, and the
returned value or propagated exception. -/
structure PipelineOutcome (Out : Type) where
  created : List AssessmentRecord
  cacheAfter : List (String × Out)
  outcome : Except String Out

/-- The persistence tail of the pipeline: if `create` raised, nothing was
persisted and the error propagates; otherwise exactly the one record is
persisted and the prediction is returned. -/
def afterCreate {Out : Type} (record : AssessmentRecord) (v : Out)
    (cacheAfter : List (String × Out)) (createRes : Except String Unit) :
    PipelineOutcome Out :=
  match createRes with
  | Except.error e => PipelineOutcome.mk [] cacheAfter (Except.error e)
  | Except.ok _ => PipelineOutcome.mk [record] cacheAfter (Except.ok v)

/-- The pipeline after the (possibly cached) model call: on a raised model
exception nothing is persisted; on success the record is assembled —
`specialty = model_name.split("_")[0]`, patient id from the explicit
argument else the schema attribute, serialized input and result,
`status="completed"` — and handed to `create`. -/
def afterModelCall {In Out : Type}
    (dumpIn : In → String) (dumpOut : Out → String)
    (getPatientId : In → Option String) (input_schema : In)
    (cache : List (String × Out)) (clinician_id : String)
    (assessment_type : String) (model_name : String)
    (patient_id : Option String) (model_version : String)
    (create : AssessmentRecord → Except String Unit)
    (callResult : Except String (CacheCallResult Out)) : PipelineOutcome Out :=
  match callResult with
  | Except.error e => PipelineOutcome.mk [] cache (Except.error e)
  | Except.ok r =>
      let final_patient_id :=
        match patient_id with
        | some p => some p
        | Option.none => getPatientId input_schema
      let record : AssessmentRecord :=
        ⟨(model_name.splitOn "_").headD model_name, assessment_type,
          final_patient_id, clinician_id, dumpIn input_schema,
          dumpOut r.value, model_version, "completed"⟩
      afterCreate record r.value r.cacheAfter (create record)

/-- Embedding of `run_assessment_pipeline` from `assessment_pipeline.py`: optionally wrap
`model_function` with `cache_result`, invoke it, resolve the patient id,
persist one record with `status="completed"`, and return the prediction
unchanged.  Any exception from the model call or from `create` propagates
and no record is created. -/
def run_assessment_pipeline {In Out : Type}
    (digest : String → String) (fname : String) (serialize : In → PyArg)
    (dumpIn : In → String) (dumpOut : Out → String)
    (getPatientId : In → Option String)
    (input_schema : In) (cache : List (String × Out))
    (clinician_id : String)
    (model_function : In → Except String Out)
    (assessment_type : String) (model_name : String)
    (patient_id : Option String) (model_version : String)
    (use_cache : Bool)
    (create : AssessmentRecord → Except String Unit) : PipelineOutcome Out :=
  afterModelCall dumpIn dumpOut getPatientId input_schema cache clinician_id
    assessment_type model_name patient_id model_version create
    (if use_cache then
      cache_result_call digest fname serialize model_function cache
        input_schema
    else
      match model_function input_schema with
      | Except.ok v => Except.ok (CacheCallResult.mk v cache 1)
      | Except.error e => Except.error e)

/-- C1: exactly-once persistence.  Whenever `run_assessment_pipeline`
returns normally with prediction `pred`, exactly one record was created,
with `input_data` the serialized input schema, `result` the serialized
returned prediction, and the pipeline's return value is `pred` itself;
whenever it propagates an error (model invocation or persistence), zero
records were created. -/
theorem pipeline_exactly_once {In Out : Type}
    (digest : String → String) (fname : String) (serialize : In → PyArg)
    (dumpIn : In → String) (dumpOut : Out → String)
    (getPatientId : In → Option String)
    (input_schema : In) (cache : List (String × Out))
    (clinician_id : String)
    (model_function : In → Except String Out)
    (assessment_type : String) (model_name : String)
    (patient_id : Option String) (model_version : String)
    (use_cache : Bool)
    (create : AssessmentRecord → Except String Unit) :
    (∀ pred,
      (run_assessment_pipeline digest fname serialize dumpIn dumpOut
        getPatientId input_schema cache clinician_id model_function
        assessment_type model_name patient_id model_version use_cache
        create).outcome = Except.ok pred →
      ∃ rec,
        (run_assessment_pipeline digest fname serialize dumpIn dumpOut
          getPatientId input_schema cache clinician_id model_function
          assessment_type model_name patient_id model_version use_cache
          create).created = [rec] ∧
        rec.input_data = dumpIn input_schema ∧
        rec.result = dumpOut pred) ∧
    (∀ e,
      (run_assessment_pipeline digest fname serialize dumpIn dumpOut
        getPatientId input_schema cache clinician_id model_function
        assessment_type model_name patient_id model_version use_cache
        create).outcome = Except.error e →
      (run_assessment_pipeline digest fname serialize dumpIn dumpOut
        getPatientId input_schema cache clinician_id model_function
        assessment_type model_name patient_id model_version use_cache
        create).created = []) := by
  simp only [run_assessment_pipeline]
  rcases hcall : (if use_cache then
      cache_result_call digest fname serialize model_function cache
        input_schema
    else
      match model_function input_schema with
      | Except.ok v => Except.ok (CacheCallResult.mk v cache 1)
      | Except.error e => Except.error e) with e | r
  · simp only [afterModelCall]
    exact ⟨fun pred h => absurd h (by simp), fun e h => trivial⟩
  · simp only [afterModelCall]
    rcases hcreate : create ⟨(model_name.splitOn "_").headD model_name,
        assessment_type,
        (match patient_id with
         | some p => some p
         | Option.none => getPatientId input_schema),
        clinician_id, dumpIn input_schema, dumpOut r.value, model_version,
        "completed"⟩ with e | u
    · simp only [hcreate, afterCreate]
      exact ⟨fun pred h => absurd h (by simp), fun e h => trivial⟩
    · simp only [hcreate, afterCreate]
      refine ⟨fun pred h => ?_, fun e h => absurd h (by simp)⟩
      have hpred : r.value = pred := by injection h
      exact ⟨_, rfl, rfl, by rw [hpred]⟩

/-- Witness for C1's theorem: a concrete pipeline run (no cache, succeeding
model function and repository) creates exactly one record carrying the
serialized input and result. -/
theorem pipeline_exactly_once_witness :
    ∃ rec,
      (run_assessment_pipeline (fun s => s) "predict" PyArg.val
        (fun v : PyVal => jsonOfPyVal v) (fun n : ℤ => toString n)
        (fun _ => Option.none) (PyVal.int 3) [] "clin-1"
        (fun _ => Except.ok (5 : ℤ)) "diagnosis_basic" "alzheimer_basic"
        Option.none "1.0.0" false (fun _ => Except.ok ())).created = [rec] ∧
      rec.input_data = jsonOfPyVal (PyVal.int 3) ∧
      rec.result = toString (5 : ℤ) :=
  (pipeline_exactly_once (fun s => s) "predict" PyArg.val
    (fun v : PyVal => jsonOfPyVal v) (fun n : ℤ => toString n)
    (fun _ => Option.none) (PyVal.int 3) [] "clin-1"
    (fun _ => Except.ok (5 : ℤ)) "diagnosis_basic" "alzheimer_basic"
    Option.none "1.0.0" false (fun _ => Except.ok ())).1 5 rfl

-- ============================================================
-- Model Invocation Adapters (Alzheimer ml_models)
-- ============================================================

/-- Python `str(v)`, as used by `diagnosis_screening.py` to normalise
`gender`/`race` (only strings and ints reach it there; float formatting is
approximated by the exact rational's representation). -/
def pyStr : PyVal → String
  | PyVal.none => "None"
  | PyVal.bool b => if b then "True" else "False"
  | PyVal.int n => toString n
  | PyVal.float q => toString q
  | PyVal.nan => "nan"
  | PyVal.str s => s

/-- Numpy `argmax` with the max value (`np.max`): first maximal index, `none`
on an empty array (where numpy raises). -/
def argmaxWithMax : List ℚ → Option (ℕ × ℚ)
  | [] => Option.none
  | q :: rest =>
      match argmaxWithMax rest with
      | Option.none => some (0, q)
      | some (i, m) => if q < m then some (i + 1, m) else some (0, q)

-- Constants of `diagnosis_basic.py`.

def CLASS_NAMES : List String := ["CN", "MCI", "AD"]

def BASIC_FEATURE_ORDER : List String :=
  ["AGE", "MMSE_bl", "CDRSB_bl", "FAQ_bl", "PTEDUCAT", "PTGENDER", "APOE4",
    "RAVLT_immediate_bl", "MOCA_bl", "ADAS13_bl"]

def BASIC_NUMERIC_COLUMNS : List String :=
  ["AGE", "MMSE_bl", "CDRSB_bl", "FAQ_bl", "PTEDUCAT", "RAVLT_immediate_bl",
    "MOCA_bl", "ADAS13_bl"]

def BASIC_CATEGORICAL_COLUMNS : List String := ["PTGENDER", "APOE4"]

def BASIC_NUMERIC_DEFAULTS : PyDict :=
  [("AGE", PyVal.float 75), ("MMSE_bl", PyVal.float 28),
    ("CDRSB_bl", PyVal.float (1/2)), ("FAQ_bl", PyVal.float 0),
    ("PTEDUCAT", PyVal.float 16), ("RAVLT_immediate_bl", PyVal.float 40),
    ("MOCA_bl", PyVal.float 26), ("ADAS13_bl", PyVal.float (21/2))]

def BASIC_CATEGORICAL_DEFAULTS : PyDict :=
  [("PTGENDER", PyVal.str "female"), ("APOE4", PyVal.int (-1))]

/-- The body of `predict_cognitive_status_basic`'s `try` block: load model
and scaler (the S3/joblib loader is abstracted as an `Except` value),
preprocess with the shared utility and the module's constants, call
`predict_proba` (abstracted as a fallible function on the feature row),
take argmax/max, and package class, confidence and per-class
probabilities. -/
def diagnosisBasicAttempt
    (load_model : Except String ((List PyVal → Except String (List ℚ)) ×
      Option (List PyVal → List PyVal)))
    (input_data : PyDict) : Except String (String × ℚ × List (String × ℚ)) := do
  let (model, preprocessor) ← load_model
  let X ← preprocess_for_prediction input_data BASIC_NUMERIC_DEFAULTS
    BASIC_CATEGORICAL_DEFAULTS BASIC_FEATURE_ORDER BASIC_NUMERIC_COLUMNS
    BASIC_CATEGORICAL_COLUMNS preprocessor
  let y_proba ← model X
  let im ← (match argmaxWithMax y_proba with
    | some im => Except.ok im
    | Option.none =>
        Except.error "attempt to get argmax of an empty sequence")
  let predicted_class ← (match CLASS_NAMES.get? im.1 with
    | some c => Except.ok c
    | Option.none => Except.error "IndexError: list index out of range")
  Except.ok (predicted_class, im.2, CLASS_NAMES.zip y_proba)

/-- Schema `AlzheimerDiagnosisBasicOutput` from
`app/schemas/alzheimer/diagnosis_basic.py`: `predicted_class` is a REQUIRED
`Literal["CN", "MCI", "AD"]` (not optional), `confidence` is
`confloat(ge=0.0, le=1.0)`, and each probability value is constrained to
`[0, 1]`.  Fields whose defaults the adapter never touches
(`prediction_id`, `status`, `warnings`, `confidence_interval`, `timestamp`,
`model_name`, `top_features`) are omitted. -/
structure AlzheimerDiagnosisBasicOutput where
  patient_id : Option String
  predicted_class : String
  confidence : ℚ
  probabilities : List (String × ℚ)
  model_version : String
  error : Option String
  deriving DecidableEq, Repr

/-- Pydantic construction of `AlzheimerDiagnosisBasicOutput`: validation
runs at `__init__`, so `predicted_class=None` (or any value outside the
Literal), a confidence outside `[0, 1]`, or an out-of-range probability
raises `ValidationError` instead of producing an instance. -/
def mkAlzheimerDiagnosisBasicOutput (patient_id : Option String)
    (predicted_class : Option String) (confidence : ℚ)
    (probabilities : List (String × ℚ)) (model_version : String)
    (error : Option String) : Except String AlzheimerDiagnosisBasicOutput :=
  match predicted_class with
  | Option.none =>
      Except.error
        "ValidationError: predicted_class must be one of CN, MCI, AD"
  | some c =>
      if c ∈ (["CN", "MCI", "AD"] : List String) then
        if 0 ≤ confidence ∧ confidence ≤ 1 then
          if probabilities.all (fun p => decide (0 ≤ p.2 ∧ p.2 ≤ 1)) then
            Except.ok ⟨patient_id, c, confidence, probabilities,
              model_version, error⟩
          else
            Except.error "ValidationError: probability out of range"
        else
          Except.error "ValidationError: confidence out of range"
      else
        Except.error
          "ValidationError: predicted_class must be one of CN, MCI, AD"

/-- The `except Exception` handler of `predict_cognitive_status_basic`: on a
caught exception `e` it constructs the output with `predicted_class=None`,
`confidence=0.0`, empty `probabilities` and `error=str(e)` — but
`predicted_class=None` violates the schema's required Literal, so this
construction itself raises `ValidationError` (masking the original
message). -/
def diagnosisBasicHandle (patient_id : Option String)
    (attempt : Except String AlzheimerDiagnosisBasicOutput) :
    Except String AlzheimerDiagnosisBasicOutput :=
  match attempt with
  | Except.ok out => Except.ok out
  | Except.error e =>
      mkAlzheimerDiagnosisBasicOutput patient_id Option.none 0 [] "1.0.0"
        (some e)

/-- Embedding of `predict_cognitive_status_basic` from `diagnosis_basic.py`:
run the `try` body — which ends by constructing the success schema, so a
`ValidationError` there is also caught — and on any caught exception run the
`except` branch.  Because the error-shaped construction is itself
schema-invalid (`predicted_class=None` against the required Literal), every
caught exception resurfaces as a `ValidationError` to the caller; hence the
`Except` return type. -/
def predict_cognitive_status_basic
    (load_model : Except String ((List PyVal → Except String (List ℚ)) ×
      Option (List PyVal → List PyVal)))
    (input_data : PyDict) (patient_id : Option String) :
    Except String AlzheimerDiagnosisBasicOutput :=
  diagnosisBasicHandle patient_id (do
    let r ← diagnosisBasicAttempt load_model input_data
    mkAlzheimerDiagnosisBasicOutput patient_id (some r.1) r.2.1 r.2.2
      "1.0.0" Option.none)

-- Constants of `prognosis_2yr_basic.py`.

def PROG_CLASS_NAMES : List String := ["Stable", "Progress"]

def PROGRESS_BASIC_FEATURE_ORDER : List String :=
  ["AGE", "PTGENDER", "PTEDUCAT", "ADAS13", "MOCA", "CDRSB", "FAQ",
    "APOE4_count", "GDTOTAL"]

def PROG_NUMERIC_COLUMNS : List String :=
  ["AGE", "PTEDUCAT", "ADAS13", "MOCA", "CDRSB", "FAQ", "GDTOTAL"]

def PROG_CATEGORICAL_COLUMNS : List String := ["PTGENDER", "APOE4_count"]

def PROG_NUMERIC_DEFAULTS : PyDict :=
  [("AGE", PyVal.int 75), ("PTEDUCAT", PyVal.int 16),
    ("ADAS13", PyVal.float (21/2)), ("MOCA", PyVal.float 26),
    ("CDRSB", PyVal.float (1/2)), ("FAQ", PyVal.float 0),
    ("GDTOTAL", PyVal.float 5)]

def PROG_CATEGORICAL_DEFAULTS : PyDict :=
  [("PTGENDER", PyVal.str "female"), ("APOE4_count", PyVal.int 0)]

/-- The body of `predict_prognosis_2yr_basic`'s `try` block: load, fill
defaults (the module does this once itself and the shared dataframe
preprocessor fills again), preprocess on the dataframe path, predict,
read the two class probabilities out of the zipped dict (`KeyError` if the
probability vector is too short), and derive the risk level with the
`< 0.20` / `< 0.50` thresholds. -/
def prognosisBasicAttempt
    (load_model : Except String ((List PyVal → Except String (List ℚ)) ×
      Option (List PyVal → List PyVal)))
    (input_data : PyDict) : Except String (ℚ × ℚ × String) := do
  let (model, preprocessor) ← load_model
  let input_filled := fill_defaults input_data PROG_NUMERIC_DEFAULTS
    PROG_CATEGORICAL_DEFAULTS
  let X ← preprocess_for_prediction_dataframe input_filled
    PROG_NUMERIC_DEFAULTS PROG_CATEGORICAL_DEFAULTS
    PROGRESS_BASIC_FEATURE_ORDER PROG_NUMERIC_COLUMNS
    PROG_CATEGORICAL_COLUMNS preprocessor
  let y_proba ← model X
  let probabilities := PROG_CLASS_NAMES.zip y_proba
  let prob_stable ← (match probabilities.lookup "Stable" with
    | some q => Except.ok q
    | Option.none => Except.error "KeyError: Stable")
  let prob_progress ← (match probabilities.lookup "Progress" with
    | some q => Except.ok q
    | Option.none => Except.error "KeyError: Progress")
  let risk_level :=
    if prob_progress < 1/5 then "low"
    else if prob_progress < 1/2 then "moderate"
    else "high"
  Except.ok (prob_stable, prob_progress, risk_level)

/-- Schema `AlzheimerPrognosis2yrBasicOutput` from
`app/schemas/alzheimer/prognosis_2yr_basic.py`: unlike the diagnosis
schemas, ALL its predictive fields (`probability_*`, `risk_level`,
`top_features`) are `Optional` with no numeric constraints, so both the
success and the error-branch constructions always pass pydantic validation
(`summary_text`, pure presentation built from the same numbers, is
omitted). -/
structure AlzheimerPrognosis2yrBasicOutput where
  patient_id : Option String
  model_name : String
  probability_progression_to_AD_within_2yrs : Option ℚ
  probability_stable_within_2yrs : Option ℚ
  risk_level : String
  top_features : Option (List String)
  error : Option String
  deriving DecidableEq, Repr

/-- Embedding of `predict_prognosis_2yr_basic` from `prognosis_2yr_basic.py`: run the
`try` body; on success return the populated schema; on ANY exception return
the schema with null probabilities, `risk_level="unknown"`, null
`top_features` and `error=str(e)` — the exception never escapes. -/
def predict_prognosis_2yr_basic
    (load_model : Except String ((List PyVal → Except String (List ℚ)) ×
      Option (List PyVal → List PyVal)))
    (input_data : PyDict) (patient_id : Option String) :
    AlzheimerPrognosis2yrBasicOutput :=
  match prognosisBasicAttempt load_model input_data with
  | Except.ok r =>
      ⟨patient_id, "prognosis_2yr_basic_v1", some r.2.1, some r.1, r.2.2,
        some ["CDRSB", "ADAS13", "AGE"], Option.none⟩
  | Except.error e =>
      ⟨patient_id, "prognosis_2yr_basic_v1", Option.none, Option.none,
        "unknown", Option.none, some e⟩

-- Constants of `diagnosis_screening.py`.

def SCREEN_FEATURE_ORDER : List String :=
  ["age", "education_years", "moca_score", "adas13_score", "cdr_sum",
    "faq_total", "gender", "race"]

/-- Schema `AlzheimerDiagnosisOutput` of the screening model — note it has no
error field. -/
structure AlzheimerDiagnosisOutput where
  patient_id : Option String
  predicted_class : String
  confidence : ℚ
  probabilities : List (String × ℚ)
  model_name : String
  deriving DecidableEq, Repr

/-- Embedding of `predict_cognitive_status` from `diagnosis_screening.py`.  Unlike the
two basic adapters it has NO catch-all `try/except`: it normalises
`gender`/`race` to lower-case strings, raises `ValueError` if any ordered
feature is missing, builds the single-row frame (`build_df_from_order`
reindexes, NaN-filling — unreachable here after the check), loads the model
(loader exceptions propagate), and calls `predict_proba` inside a
`try/except` that logs and RE-RAISES.  Every failure propagates to the
caller, hence the `Except` return type. -/
def predict_cognitive_status
    (load_model : Except String (List PyVal → Except String (List ℚ)))
    (input_data : PyDict) (patient_id : Option String) :
    Except String AlzheimerDiagnosisOutput := do
  let input_data := input_data.insert "gender"
    (PyVal.str (lowerString (pyStr
      ((input_data.lookup "gender").getD (PyVal.str "female")))))
  let input_data := input_data.insert "race"
    (PyVal.str (pyStr ((input_data.lookup "race").getD (PyVal.str "1"))))
  let missing_features := SCREEN_FEATURE_ORDER.filter
    (fun f => ¬ input_data.member f)
  if missing_features ≠ [] then
    Except.error "ValueError: Missing required features"
  else do
    let df := SCREEN_FEATURE_ORDER.map
      (fun f => (input_data.lookup f).getD PyVal.nan)
    let model ← load_model
    let y_proba ← model df
    let im ← (match argmaxWithMax y_proba with
      | some im => Except.ok im
      | Option.none =>
          Except.error "attempt to get argmax of an empty sequence")
    let predicted_class ← (match CLASS_NAMES.get? im.1 with
      | some c => Except.ok c
      | Option.none => Except.error "IndexError: list index out of range")
    -- the returned `AlzheimerDiagnosisOutput` also validates at
    -- construction (`confidence` and each probability in `[0, 1]`;
    -- `predicted_class` always lies in the Literal here since it is drawn
    -- from `CLASS_NAMES`), and a `ValidationError` propagates like every
    -- other failure
    if 0 ≤ im.2 ∧ im.2 ≤ 1 then
      if (CLASS_NAMES.zip y_proba).all (fun p => decide (0 ≤ p.2 ∧ p.2 ≤ 1))
      then
        Except.ok ⟨patient_id, predicted_class, im.2,
          CLASS_NAMES.zip y_proba, "alz_model_v1"⟩
      else
        Except.error "ValidationError: probability out of range"
    else
      Except.error "ValidationError: confidence out of range"

/-- Any `Except.ok` result of the pydantic constructor carries exactly the
`error` value it was passed. -/
theorem mkDiagnosisBasicOutput_ok_error (patient_id : Option String)
    (pc : Option String) (conf : ℚ) (probs : List (String × ℚ))
    (mv : String) (err : Option String) (out : AlzheimerDiagnosisBasicOutput)
    (h : mkAlzheimerDiagnosisBasicOutput patient_id pc conf probs mv err =
      Except.ok out) : out.error = err := by
  rcases pc with _ | c
  · exact absurd h (by simp [mkAlzheimerDiagnosisBasicOutput])
  · simp only [mkAlzheimerDiagnosisBasicOutput] at h
    split at h
    · split at h
      · split at h
        · cases h
          rfl
        · exact absurd h (by simp)
      · exact absurd h (by simp)
    · exact absurd h (by simp)

/-- C4 (amended): of the three adapters only `predict_prognosis_2yr_basic`
converts exceptions raised while loading artifacts, preprocessing, or
invoking the model into a schema-valid error result carrying the message
and null/placeholder predictive fields that never reaches its caller (its
output schema's predictive fields are all Optional).
`predict_cognitive_status_basic` does catch such exceptions, but its
error-shaped construction sets `predicted_class=None` against the output
schema's required `Literal["CN","MCI","AD"]`, so the handler itself raises
`ValidationError`, which propagates to the caller and masks the original
message.  (`predict_cognitive_status` has no boundary at all and propagates
directly — see `diagnosis_screening_propagates`.)  When an attempt
succeeds, either basic adapter's result carries no error. -/
theorem adapter_error_discipline
    (loadB loadP : Except String ((List PyVal → Except String (List ℚ)) ×
      Option (List PyVal → List PyVal)))
    (inputB inputP : PyDict) (pidB pidP : Option String) (e : String) :
    ((loadP = Except.error e ∨
      (∃ m p, loadP = Except.ok (m, p) ∧
        preprocess_for_prediction_dataframe
          (fill_defaults inputP PROG_NUMERIC_DEFAULTS
            PROG_CATEGORICAL_DEFAULTS)
          PROG_NUMERIC_DEFAULTS PROG_CATEGORICAL_DEFAULTS
          PROGRESS_BASIC_FEATURE_ORDER PROG_NUMERIC_COLUMNS
          PROG_CATEGORICAL_COLUMNS p = Except.error e) ∨
      (∃ m p X, loadP = Except.ok (m, p) ∧
        preprocess_for_prediction_dataframe
          (fill_defaults inputP PROG_NUMERIC_DEFAULTS
            PROG_CATEGORICAL_DEFAULTS)
          PROG_NUMERIC_DEFAULTS PROG_CATEGORICAL_DEFAULTS
          PROGRESS_BASIC_FEATURE_ORDER PROG_NUMERIC_COLUMNS
          PROG_CATEGORICAL_COLUMNS p = Except.ok X ∧
        m X = Except.error e)) →
      predict_prognosis_2yr_basic loadP inputP pidP =
        ⟨pidP, "prognosis_2yr_basic_v1", Option.none, Option.none,
          "unknown", Option.none, some e⟩) ∧
    (∀ r, prognosisBasicAttempt loadP inputP = Except.ok r →
      (predict_prognosis_2yr_basic loadP inputP pidP).error =
        Option.none) ∧
    ((loadB = Except.error e ∨
      (∃ m p, loadB = Except.ok (m, p) ∧
        preprocess_for_prediction inputB BASIC_NUMERIC_DEFAULTS
          BASIC_CATEGORICAL_DEFAULTS BASIC_FEATURE_ORDER
          BASIC_NUMERIC_COLUMNS BASIC_CATEGORICAL_COLUMNS p =
          Except.error e) ∨
      (∃ m p X, loadB = Except.ok (m, p) ∧
        preprocess_for_prediction inputB BASIC_NUMERIC_DEFAULTS
          BASIC_CATEGORICAL_DEFAULTS BASIC_FEATURE_ORDER
          BASIC_NUMERIC_COLUMNS BASIC_CATEGORICAL_COLUMNS p =
          Except.ok X ∧
        m X = Except.error e)) →
      predict_cognitive_status_basic loadB inputB pidB =
        Except.error
          "ValidationError: predicted_class must be one of CN, MCI, AD") ∧
    (∀ out, predict_cognitive_status_basic loadB inputB pidB =
        Except.ok out →
      out.error = Option.none) := by
  refine ⟨?_, ?_, ?_, ?_⟩
  · intro hsrc
    have hatt : prognosisBasicAttempt loadP inputP = Except.error e := by
      rcases hsrc with h | ⟨m, p, hl, hp⟩ | ⟨m, p, X, hl, hp, hm⟩
      · rw [prognosisBasicAttempt, h]
        rfl
      · rw [prognosisBasicAttempt, hl, ok_bind]
        simp only [ok_bind, error_bind, hp]
      · rw [prognosisBasicAttempt, hl, ok_bind]
        simp only [ok_bind, error_bind, hp, hm]
    rw [predict_prognosis_2yr_basic, hatt]
  · intro r hr
    rw [predict_prognosis_2yr_basic, hr]
  · intro hsrc
    have hatt : diagnosisBasicAttempt loadB inputB = Except.error e := by
      rcases hsrc with h | ⟨m, p, hl, hp⟩ | ⟨m, p, X, hl, hp, hm⟩
      · rw [diagnosisBasicAttempt, h]
        rfl
      · rw [diagnosisBasicAttempt, hl, ok_bind]
        simp only [ok_bind, error_bind, hp]
      · rw [diagnosisBasicAttempt, hl, ok_bind]
        simp only [ok_bind, error_bind, hp, hm]
    rw [predict_cognitive_status_basic, hatt, error_bind]
    rfl
  · intro out hout
    rw [predict_cognitive_status_basic] at hout
    rcases hcase : diagnosisBasicAttempt loadB inputB with e₁ | r
    · rw [hcase, error_bind] at hout
      exact absurd hout
        (by simp [diagnosisBasicHandle, mkAlzheimerDiagnosisBasicOutput])
    · rw [hcase, ok_bind] at hout
      rcases hmk : mkAlzheimerDiagnosisBasicOutput pidB (some r.1) r.2.1
          r.2.2 "1.0.0" Option.none with e₂ | o
      · rw [hmk] at hout
        exact absurd hout
          (by simp [diagnosisBasicHandle, mkAlzheimerDiagnosisBasicOutput])
      · rw [hmk] at hout
        have ho : o = out := by
          simp only [diagnosisBasicHandle] at hout
          injection hout
        rw [← ho]
        exact mkDiagnosisBasicOutput_ok_error pidB (some r.1) r.2.1 r.2.2
          "1.0.0" Option.none o hmk

/-- Witness for C4's amended theorem: a failed artifact load is converted
into a schema-valid error result by the prognosis adapter, while the
diagnosis-basic adapter's handler raises `ValidationError` to its caller. -/
theorem adapter_error_discipline_witness :
    predict_prognosis_2yr_basic (Except.error "S3 download failed")
        exRawInput (some "p1") =
      ⟨some "p1", "prognosis_2yr_basic_v1", Option.none, Option.none,
        "unknown", Option.none, some "S3 download failed"⟩ ∧
    predict_cognitive_status_basic (Except.error "S3 download failed")
        exRawInput (some "p1") =
      Except.error
        "ValidationError: predicted_class must be one of CN, MCI, AD" :=
  ⟨(adapter_error_discipline (Except.error "S3 download failed")
      (Except.error "S3 download failed") exRawInput exRawInput (some "p1")
      (some "p1") "S3 download failed").1 (Or.inl rfl),
    (adapter_error_discipline (Except.error "S3 download failed")
      (Except.error "S3 download failed") exRawInput exRawInput (some "p1")
      (some "p1") "S3 download failed").2.2.1 (Or.inl rfl)⟩

/-- A complete screening input (all eight ordered features present). -/
def screenSampleInput : PyDict :=
  [("age", PyVal.int 70), ("education_years", PyVal.int 16),
    ("moca_score", PyVal.int 26), ("adas13_score", PyVal.float (21/2)),
    ("cdr_sum", PyVal.float (1/2)), ("faq_total", PyVal.int 0),
    ("gender", PyVal.str "Female"), ("race", PyVal.str "1")]

/-- C4 (counterexample): the claim says every model function catches
exceptions at the adapter boundary and never propagates them; but
`predict_cognitive_status` (diagnosis_screening) has no catch-all — its
`try/except` around `predict_proba` re-raises, and loader failures are not
guarded at all.  On a valid input with a failing model load the exception
reaches the caller. -/
theorem diagnosis_screening_propagates :
    predict_cognitive_status (Except.error "S3 download failed")
      screenSampleInput (some "p1") =
      Except.error "S3 download failed" := by decide

/-- Whatever `afterCreate` persists is exactly the record it was handed. -/
theorem afterCreate_created_eq {Out : Type} (record : AssessmentRecord)
    (v : Out) (c : List (String × Out)) (res : Except String Unit) :
    ∀ rec ∈ (afterCreate record v c res).created, rec = record := by
  intro rec hrec
  cases res with
  | error e => simp [afterCreate] at hrec
  | ok u =>
      simp only [afterCreate, List.mem_singleton] at hrec
      exact hrec

/-- C10: every record the pipeline creates carries `status = "completed"`
(the orchestrator hard-codes it), and this includes assessments whose
prediction result is an error-shaped schema carrying an error message and
null predictive fields: a failed prediction converted to an error result is
still recorded as a completed assessment.  The prognosis adapter is the
model function that actually produces such schema-valid error results (the
diagnosis-basic adapter's error-branch construction is schema-invalid and
raises instead, in which case the pipeline creates zero records — covered
by C1). -/
theorem pipeline_status_always_completed
    (digest : String → String) (fname : String) (serialize : PyDict → PyArg)
    (dumpIn : PyDict → String)
    (dumpOut : AlzheimerPrognosis2yrBasicOutput → String)
    (getPatientId : PyDict → Option String) (input_data : PyDict)
    (cache : List (String × AlzheimerPrognosis2yrBasicOutput))
    (clinician_id : String)
    (load : Except String ((List PyVal → Except String (List ℚ)) ×
      Option (List PyVal → List PyVal)))
    (pid : Option String) (e : String) (hload : load = Except.error e)
    (assessment_type model_name : String) (patient_id : Option String)
    (model_version : String) :
    (∀ (In Out : Type) (digest₁ : String → String) (fname₁ : String)
      (serialize₁ : In → PyArg) (dumpIn₁ : In → String)
      (dumpOut₁ : Out → String) (getPatientId₁ : In → Option String)
      (input₁ : In) (cache₁ : List (String × Out)) (clinician₁ : String)
      (mf₁ : In → Except String Out) (at₁ mn₁ : String)
      (pid₁ : Option String) (mv₁ : String) (uc₁ : Bool)
      (create₁ : AssessmentRecord → Except String Unit),
      ∀ rec ∈ (run_assessment_pipeline digest₁ fname₁ serialize₁ dumpIn₁
        dumpOut₁ getPatientId₁ input₁ cache₁ clinician₁ mf₁ at₁ mn₁ pid₁
        mv₁ uc₁ create₁).created, rec.status = "completed") ∧
    ∃ rec out,
      (run_assessment_pipeline digest fname serialize dumpIn dumpOut
        getPatientId input_data cache clinician_id
        (fun inp => Except.ok (predict_prognosis_2yr_basic load inp pid))
        assessment_type model_name patient_id model_version false
        (fun _ => Except.ok ())).created = [rec] ∧
      (run_assessment_pipeline digest fname serialize dumpIn dumpOut
        getPatientId input_data cache clinician_id
        (fun inp => Except.ok (predict_prognosis_2yr_basic load inp pid))
        assessment_type model_name patient_id model_version false
        (fun _ => Except.ok ())).outcome = Except.ok out ∧
      rec.status = "completed" ∧
      out.error = some e ∧
      out.probability_progression_to_AD_within_2yrs = Option.none ∧
      rec.result = dumpOut out := by
  constructor
  · intro In Out digest₁ fname₁ serialize₁ dumpIn₁ dumpOut₁ getPatientId₁
      input₁ cache₁ clinician₁ mf₁ at₁ mn₁ pid₁ mv₁ uc₁ create₁ rec hrec
    simp only [run_assessment_pipeline] at hrec
    rcases hcall : (if uc₁ then
        cache_result_call digest₁ fname₁ serialize₁ mf₁ cache₁ input₁
      else
        match mf₁ input₁ with
        | Except.ok v => Except.ok (CacheCallResult.mk v cache₁ 1)
        | Except.error e => Except.error e) with e₁ | r
    · rw [hcall] at hrec
      simp only [afterModelCall] at hrec
      exact absurd hrec (by simp)
    · rw [hcall] at hrec
      simp only [afterModelCall] at hrec
      have hr := afterCreate_created_eq _ _ _ _ rec hrec
      rw [hr]
  · subst hload
    refine ⟨_, predict_prognosis_2yr_basic (Except.error e) input_data pid,
      rfl, rfl, rfl, rfl, rfl, rfl⟩

/-- Witness for C10's theorem: a concrete failed-load prognosis run still
persists one record with `status = "completed"` whose result is the
error-shaped schema. -/
theorem pipeline_status_always_completed_witness :
    ∃ rec out,
      (run_assessment_pipeline (fun s => s) "predict"
        (fun _ : PyDict => PyArg.obj "schema") (fun _ => "input-json")
        (fun o : AlzheimerPrognosis2yrBasicOutput =>
          (o.error.getD "ok") ++ "-json")
        (fun _ => Option.none) exRawInput [] "clin-1"
        (fun inp => Except.ok (predict_prognosis_2yr_basic
          (Except.error "boom") inp Option.none))
        "prognosis_2yr_basic" "alzheimer_prognosis" Option.none "1.0.0"
        false (fun _ => Except.ok ())).created = [rec] ∧
      (run_assessment_pipeline (fun s => s) "predict"
        (fun _ : PyDict => PyArg.obj "schema") (fun _ => "input-json")
        (fun o : AlzheimerPrognosis2yrBasicOutput =>
          (o.error.getD "ok") ++ "-json")
        (fun _ => Option.none) exRawInput [] "clin-1"
        (fun inp => Except.ok (predict_prognosis_2yr_basic
          (Except.error "boom") inp Option.none))
        "prognosis_2yr_basic" "alzheimer_prognosis" Option.none "1.0.0"
        false (fun _ => Except.ok ())).outcome = Except.ok out ∧
      rec.status = "completed" ∧
      out.error = some "boom" ∧
      out.probability_progression_to_AD_within_2yrs = Option.none ∧
      rec.result = (out.error.getD "ok") ++ "-json" :=
  (pipeline_status_always_completed (fun s => s) "predict"
    (fun _ : PyDict => PyArg.obj "schema") (fun _ => "input-json")
    (fun o : AlzheimerPrognosis2yrBasicOutput =>
      (o.error.getD "ok") ++ "-json")
    (fun _ => Option.none) exRawInput [] "clin-1"
    (Except.error "boom") Option.none "boom" rfl
    "prognosis_2yr_basic" "alzheimer_prognosis" Option.none "1.0.0").2
